import Mathlib

/-!
Verification of the cloth-simulation Modeler (blendycat).

The development shallowly embeds the Modeler class: `step` runs 10 substeps of
Verlet integration, constraint relaxation over a grid topology, and collision
handling against a sphere and a bounded ground rectangle, then writes positions
into the packed vertex buffer and recomputes per-vertex normals.  JavaScript
numbers are modelled as exact reals; vertex arrays as lists that are updated by
index, mirroring the in-place mutation of the source.
-/

set_option maxHeartbeats 1000000

noncomputable section

namespace Blendycat

/-- Vector of three real components, mirroring gl-matrix `Vec3`. -/
@[ext]
structure Vec3 where
  x : ℝ
  y : ℝ
  z : ℝ

instance : Zero Vec3 := ⟨⟨0, 0, 0⟩⟩
instance : Add Vec3 := ⟨fun a b => ⟨a.x + b.x, a.y + b.y, a.z + b.z⟩⟩
instance : Sub Vec3 := ⟨fun a b => ⟨a.x - b.x, a.y - b.y, a.z - b.z⟩⟩
instance : Neg Vec3 := ⟨fun a => ⟨-a.x, -a.y, -a.z⟩⟩
instance : Inhabited Vec3 := ⟨0⟩

/-- gl-matrix `scale`: multiply every component by a scalar. -/
def Vec3.scale (v : Vec3) (s : ℝ) : Vec3 := ⟨v.x * s, v.y * s, v.z * s⟩

/-- Squared Euclidean length `x*x + y*y + z*z`. -/
def Vec3.normSq (v : Vec3) : ℝ := v.x * v.x + v.y * v.y + v.z * v.z

/-- gl-matrix `magnitude`: Euclidean length. -/
def Vec3.magnitude (v : Vec3) : ℝ := Real.sqrt v.normSq

/-- gl-matrix `Vec3.distance`. -/
def Vec3.distance (a b : Vec3) : ℝ := (a - b).magnitude

/-- gl-matrix `normalize`: scale by the inverse length; the zero vector is
left unchanged (gl-matrix guards `len > 0`, and `0⁻¹ = 0` here gives the same
result). -/
def Vec3.normalize (v : Vec3) : Vec3 := v.scale (v.magnitude)⁻¹

/-- gl-matrix `cross` product. -/
def Vec3.cross (a b : Vec3) : Vec3 :=
  ⟨a.y * b.z - a.z * b.y, a.z * b.x - a.x * b.z, a.x * b.y - a.y * b.x⟩

/-- A cloth vertex: current position and previous position (Verlet state). -/
@[ext]
structure Vertex where
  p : Vec3
  lastP : Vec3

instance : Inhabited Vertex := ⟨⟨0, 0⟩⟩

/-- The scene sphere: world position and radius (read-only to the cloth). -/
structure Sphere where
  p : Vec3
  radius : ℝ

/-- The scene ground box; the Modeler reads only `width` and `length`. -/
structure Box where
  p : Vec3
  width : ℝ
  height : ℝ
  length : ℝ

/-- Packed render buffers of the cloth (one 9-float stride per vertex:
position at offset 0, normal at offset 3, color at offset 6). -/
structure ClothData where
  vertexData : List ℝ
  indexData : List ℕ

/-- The cloth object.  `vertices` and `data` are `Option`s: they are absent
until the external mesh generator (`createClothVertices`) populates them. -/
structure Cloth where
  p : Vec3
  width : ℝ
  length : ℝ
  divisions : ℕ × ℕ
  vertices : Option (List Vertex)
  data : Option ClothData

/-- The Modeler's constant gravitational acceleration `g = (0, -9.8, 0)`. -/
def gravity : Vec3 := ⟨0, -9.8, 0⟩

/-- `Modeler.updatePositions`: Verlet step
`newP = p*2 - lastP + g*(dt*dt)`, `lastP` becomes the pre-update `p`. -/
def updatePositions (dt : ℝ) (vs : List Vertex) : List Vertex :=
  vs.map fun vertex =>
    let temp := vertex.p
    let newP := vertex.p.scale 2 - vertex.lastP + gravity.scale (dt * dt)
    { p := newP, lastP := temp }

/-- The 10 candidate neighbor indices of vertex `i` in a `vXCount × vZCount`
grid, in the order of the source's `neighbors` array: top, right, bottom,
left, bendy-right (+2), bendy-below (+2), top-left, top-right, bottom-left,
bottom-right.  Out-of-bounds candidates are `none`. -/
def neighborIndices (vXCount vZCount : ℕ) (i : ℕ) : List (Option ℕ) :=
  let vXI := i % vXCount
  let vZI := i / vXCount
  [ if 0 < vZI then some ((vZI - 1) * vXCount + vXI) else none,
    if vXI < vXCount - 1 then some (vZI * vXCount + vXI + 1) else none,
    if vZI < vZCount - 1 then some ((vZI + 1) * vXCount + vXI) else none,
    if 0 < vXI then some (vZI * vXCount + vXI - 1) else none,
    if vXI < vXCount - 2 then some (vZI * vXCount + vXI + 2) else none,
    if vZI < vZCount - 2 then some ((vZI + 2) * vXCount + vXI) else none,
    if 0 < vZI ∧ 0 < vXI then some ((vZI - 1) * vXCount + vXI - 1) else none,
    if 0 < vZI ∧ vXI < vXCount - 1 then some ((vZI - 1) * vXCount + vXI + 1) else none,
    if vZI < vZCount - 1 ∧ 0 < vXI then some ((vZI + 1) * vXCount + vXI - 1) else none,
    if vZI < vZCount - 1 ∧ vXI < vXCount - 1 then some ((vZI + 1) * vXCount + vXI + 1) else none ]

/-- Rest length and relaxation factor for candidate slot `nI`, exactly as the
source selects them: slots 0-3 structural (`restD.x`/`restD.y` by parity,
factor 0.2), slots 4-5 bend (doubled, factor 0.2), slots 6-9 shear
(diagonal length, factor 0.1). -/
def restFor (restD : ℝ × ℝ) (nI : ℕ) : ℝ × ℝ :=
  if nI < 4 then (if nI % 2 = 0 then restD.1 else restD.2, 0.2)
  else if nI < 6 then (if nI % 2 = 0 then restD.1 * 2 else restD.2 * 2, 0.2)
  else (Real.sqrt (restD.1 * restD.1 + restD.2 * restD.2), 0.1)

/-- One constraint resolution on a pair of positions: the correction
`delta * ((len - restLength)/len * relaxFactor)` is added to the vertex
position and subtracted from the neighbor position. -/
def resolvePair (restLength relaxFactor : ℝ) (vp np : Vec3) : Vec3 × Vec3 :=
  let delta := np - vp
  let currentLength := delta.magnitude
  let correction := delta.scale ((currentLength - restLength) / currentLength * relaxFactor)
  (vp + correction, np - correction)

/-- Process one candidate slot for vertex `i`.  The state is the vertex list
together with the list of constraint lengths encountered so far (the divisors
of the corrections, recorded for reachability analysis). -/
def relaxSlot (restD : ℝ × ℝ) (i : ℕ) (acc : List Vertex × List ℝ)
    (slot : ℕ × Option ℕ) : List Vertex × List ℝ :=
  match slot.2 with
  | none => acc
  | some j =>
    let vs := acc.1
    let rf := restFor restD slot.1
    let vertex := vs.getD i default
    let neighborVertex := vs.getD j default
    let currentLength := (neighborVertex.p - vertex.p).magnitude
    let pq := resolvePair rf.1 rf.2 vertex.p neighborVertex.p
    ((vs.set i { vertex with p := pq.1 }).set j { neighborVertex with p := pq.2 },
      acc.2 ++ [currentLength])

/-- Process all 10 candidate slots of vertex `i` in source order. -/
def relaxVertex (vXCount vZCount : ℕ) (restD : ℝ × ℝ)
    (acc : List Vertex × List ℝ) (i : ℕ) : List Vertex × List ℝ :=
  ((neighborIndices vXCount vZCount i).enum).foldl (relaxSlot restD i) acc

/-- `Modeler.solveConstraints`, instrumented: runs the single Gauss-Seidel
pass over all vertices in ascending index order and also returns every
constraint length that was used as a divisor. -/
def solveConstraintsAux (divX divY : ℕ) (restD : ℝ × ℝ) (vs : List Vertex) :
    List Vertex × List ℝ :=
  (List.range vs.length).foldl (relaxVertex (divX + 1) (divY + 1) restD) (vs, [])

/-- `Modeler.solveConstraints`: the relaxed vertex list. -/
def solveConstraints (divX divY : ℕ) (restD : ℝ × ℝ) (vs : List Vertex) : List Vertex :=
  (solveConstraintsAux divX divY restD vs).1

/-- The constraint lengths (divisors) encountered during one relaxation pass. -/
def relaxLens (divX divY : ℕ) (restD : ℝ × ℝ) (vs : List Vertex) : List ℝ :=
  (solveConstraintsAux divX divY restD vs).2

/-- Ground friction coefficient `mu = 0.01`. -/
def mu : ℝ := 0.01

/-- Ground restitution coefficient `cr = 0.2`. -/
def cr : ℝ := 0.2

/-- The sphere branch of `Modeler.handleCollisions` for one vertex.
`gVertexP` is the world position computed by the caller before any
correction of this call. -/
def sphereCollide (gVertexP : Vec3) (sphere : Sphere) (vertex : Vertex) : Vertex :=
  let distFromSphere := Vec3.distance gVertexP sphere.p - sphere.radius
  if distFromSphere ≤ 0.1 then
    let dir := (gVertexP - sphere.p).normalize
    let penetrationDepth := sphere.radius + 0.1 - distFromSphere
    let correction := dir.scale (penetrationDepth * 0.004)
    { p := vertex.p + correction, lastP := vertex.lastP + correction.scale 0.5 }
  else vertex

/-- The ground branch of `Modeler.handleCollisions` for one vertex; note the
source computes `gVertexP` once per vertex, before the sphere branch runs, so
the same `gVertexP` is passed here. -/
def groundCollide (gVertexP : Vec3) (ground : Box) (vertex : Vertex) : Vertex :=
  if gVertexP.y ≤ 0.1 ∧
      gVertexP.x < ground.width / 2 ∧ -(ground.width / 2) < gVertexP.x ∧
      gVertexP.z < ground.length / 2 ∧ -(ground.length / 2) < gVertexP.z then
    let penetrationDepth := 0.1 - gVertexP.y
    let correction := (Vec3.mk 0 1 0).scale penetrationDepth
    let newP := vertex.p + correction
    let velocity := newP - vertex.lastP
    let velocity2 := Vec3.mk (velocity.x * (1 - mu)) (velocity.y * (-cr)) (velocity.z * (1 - mu))
    { p := newP, lastP := newP - velocity2 }
  else vertex

/-- `Modeler.handleCollisions` for one vertex: world position is the vertex
position offset by the cloth position; sphere branch first, then ground. -/
def collideVertex (clothP : Vec3) (sphere : Sphere) (ground : Box) (vertex : Vertex) : Vertex :=
  let gVertexP := clothP + vertex.p
  groundCollide gVertexP ground (sphereCollide gVertexP sphere vertex)

/-- `Modeler.handleCollisions` over the whole vertex list. -/
def handleCollisions (clothP : Vec3) (sphere : Sphere) (ground : Box)
    (vs : List Vertex) : List Vertex :=
  vs.map (collideVertex clothP sphere ground)

/-- The source's `calculateTriangleNormal`: the NORMALIZED cross product of
the two edge vectors. -/
def calculateTriangleNormal (v1 v2 v3 : Vec3) : Vec3 :=
  let edge1 := v2 - v1
  let edge2 := v3 - v1
  (edge1.cross edge2).normalize

/-- Split the flat index list into consecutive triangles (`i += 3` loop). -/
def triples : List ℕ → List (ℕ × ℕ × ℕ)
  | i1 :: i2 :: i3 :: rest => (i1, i2, i3) :: triples rest
  | _ => []

/-- Add one triangle's face normal to the three incident accumulators, in the
source's statement order. -/
def addTriangleNormal (ps : List Vec3) (normals : List Vec3) (t : ℕ × ℕ × ℕ) : List Vec3 :=
  let n := calculateTriangleNormal (ps.getD t.1 default) (ps.getD t.2.1 default)
    (ps.getD t.2.2 default)
  let n1 := normals.set t.1 (normals.getD t.1 default + n)
  let n2 := n1.set t.2.1 (n1.getD t.2.1 default + n)
  n2.set t.2.2 (n2.getD t.2.2 default + n)

/-- The accumulation phase of `Modeler.updateNormals`: start from zero
accumulators (one per vertex) and fold over all triangles. -/
def accumNormals (ps : List Vec3) (indexData : List ℕ) : List Vec3 :=
  (triples indexData).foldl (addTriangleNormal ps) (ps.map fun _ => 0)

/-- The per-vertex normals of `Modeler.updateNormals`: every accumulator is
normalized in place after all triangles have been processed. -/
def vertexNormals (ps : List Vec3) (indexData : List ℕ) : List Vec3 :=
  (accumNormals ps indexData).map Vec3.normalize

/-- The write-back phase of `Modeler.updateNormals`: normal components at
stride offsets 3, 4, 5. -/
def writeNormals (count : ℕ) (normals : List Vec3) (vertexData : List ℝ) : List ℝ :=
  (List.range count).foldl
    (fun d i =>
      let ni := normals.getD i default
      ((d.set (i * 9 + 3) ni.x).set (i * 9 + 4) ni.y).set (i * 9 + 5) ni.z)
    vertexData

/-- `Modeler.updateNormals`. -/
def updateNormals (vs : List Vertex) (indexData : List ℕ) (vertexData : List ℝ) : List ℝ :=
  writeNormals vs.length (vertexNormals (vs.map Vertex.p) indexData) vertexData

/-- `Modeler.updateVertexBuffer`: position components at stride offsets
0, 1, 2. -/
def updateVertexBuffer (vs : List Vertex) (vertexData : List ℝ) : List ℝ :=
  (List.range vs.length).foldl
    (fun d i =>
      let p := (vs.getD i default).p
      ((d.set (i * 9) p.x).set (i * 9 + 1) p.y).set (i * 9 + 2) p.z)
    vertexData

/-- One substep of `Modeler.step`: Position Integrator, then Constraint
Relaxer, then Collision Resolver. -/
def subStep (divX divY : ℕ) (restD : ℝ × ℝ) (clothP : Vec3) (sphere : Sphere)
    (ground : Box) (dt : ℝ) (vs : List Vertex) : List Vertex :=
  handleCollisions clothP sphere ground (solveConstraints divX divY restD (updatePositions dt vs))

/-- `Modeler.step`: 10 fixed substeps on the cloth's vertex state, then the
buffer write and the normal recomputation.  The non-null assertions
`cloth.vertices!` / `cloth.data!` of the source are modelled as the error
branch: an absent field faults the step instead of being operated on. -/
def step (dt : ℝ) (cloth : Cloth) (sphere : Sphere) (ground : Box) : Except String Cloth :=
  let restD : ℝ × ℝ := (cloth.width / (cloth.divisions.1 : ℝ), cloth.length / (cloth.divisions.2 : ℝ))
  let iterations : ℕ := 10
  let subDt := dt / (iterations : ℝ)
  match cloth.vertices with
  | none => Except.error "cloth.vertices is not populated"
  | some vs0 =>
    let vs := (List.range iterations).foldl
      (fun vsAcc _ => subStep cloth.divisions.1 cloth.divisions.2 restD cloth.p sphere ground subDt vsAcc)
      vs0
    match cloth.data with
    | none => Except.error "cloth.data is not populated"
    | some data =>
      let vd := updateNormals vs data.indexData (updateVertexBuffer vs data.vertexData)
      Except.ok { cloth with vertices := some vs, data := some { data with vertexData := vd } }

/-- The post-loop phase of `Modeler.step` (source lines 18-19): write the
final vertex positions into the packed buffer, then recompute normals —
each exactly once per frame. -/
def finishFrame (cloth : Cloth) (data : ClothData) (vs : List Vertex) : Cloth :=
  { cloth with
    vertices := some vs,
    data := some { data with
      vertexData := updateNormals vs data.indexData (updateVertexBuffer vs data.vertexData) } }

/-- Spec wording (§4.2): `newP = 2·p − lastP + a·dt²`, then `lastP ← p
(pre-update)`; no other damping term. -/
def specIntegrateVertex (dt : ℝ) (v : Vertex) : Vertex :=
  { p := v.p.scale 2 - v.lastP + gravity.scale (dt ^ 2), lastP := v.p }

/-- Spec wording (§4.3): class-selected rest length — structural `restD.x` or
`restD.y` by slot parity, bend twice the corresponding structural length,
shear the diagonal `sqrt(restD.x² + restD.y²)`. -/
def specRestLength (restD : ℝ × ℝ) (nI : ℕ) : ℝ :=
  if nI ≤ 3 then (if nI % 2 = 0 then restD.1 else restD.2)
  else if nI ≤ 5 then 2 * (if nI % 2 = 0 then restD.1 else restD.2)
  else Real.sqrt (restD.1 ^ 2 + restD.2 ^ 2)

/-- Spec wording (§4.3): relaxation factor 0.2 for structural and bend links,
0.1 for shear links. -/
def specRelaxFactor (nI : ℕ) : ℝ := if nI ≤ 3 then 0.2 else if nI ≤ 5 then 0.2 else 0.1

/-- The existing neighbor links of vertex `i`, as (slot, neighbor) pairs in
slot order (absent candidates dropped). -/
def specLinks (vXCount vZCount i : ℕ) : List (ℕ × ℕ) :=
  (neighborIndices vXCount vZCount i).enum.filterMap fun s => s.2.map fun j => (s.1, j)

/-- Spec wording (§4.3) for resolving one existing link of vertex `i`:
`delta = neighbor.p − vertex.p`, `len = |delta|`,
`correction = delta × ((len − restLength)/len) × factor`; the correction is
added to `vertex.p` and subtracted from `neighbor.p`. -/
def specResolveLink (restD : ℝ × ℝ) (i : ℕ) (vs : List Vertex) (link : ℕ × ℕ) : List Vertex :=
  let vertex := vs.getD i default
  let neighbor := vs.getD link.2 default
  let delta := neighbor.p - vertex.p
  let len := delta.magnitude
  let correction := delta.scale ((len - specRestLength restD link.1) / len * specRelaxFactor link.1)
  (vs.set i { vertex with p := vertex.p + correction }).set link.2
    { neighbor with p := neighbor.p - correction }

/-- Spec wording (§4.3) of the whole Relaxer pass: vertices in ascending
index order, each existing link resolved in turn, every update immediately
visible to the rest of the pass. -/
def specRelaxPass (divX divY : ℕ) (restD : ℝ × ℝ) (vs : List Vertex) : List Vertex :=
  (List.range vs.length).foldl
    (fun vsAcc i => (specLinks (divX + 1) (divY + 1) i).foldl (specResolveLink restD i) vsAcc)
    vs

/-- The claim's reading of the sphere response: penetration measured from the
sphere CENTER, `penetration = sphere.radius + 0.1 − distance(vertex, center)`. -/
def claimSphereCollide (gVertexP : Vec3) (sphere : Sphere) (vertex : Vertex) : Vertex :=
  let distCenter := Vec3.distance gVertexP sphere.p
  if distCenter - sphere.radius ≤ 0.1 then
    let dir := (gVertexP - sphere.p).normalize
    let penetrationDepth := sphere.radius + 0.1 - distCenter
    let correction := dir.scale (penetrationDepth * 0.004)
    { p := vertex.p + correction, lastP := vertex.lastP + correction.scale 0.5 }
  else vertex

/-- The amended sphere response: the source's penetration is measured from
the sphere SURFACE, `penetration = sphere.radius + 0.1 − distFromSurface`
with `distFromSurface = distance(vertex, center) − sphere.radius`, i.e.
`2·radius + 0.1 − distance(vertex, center)`. -/
def amendedSphereCollide (gVertexP : Vec3) (sphere : Sphere) (vertex : Vertex) : Vertex :=
  let distCenter := Vec3.distance gVertexP sphere.p
  if distCenter - sphere.radius ≤ 0.1 then
    let dir := (gVertexP - sphere.p).normalize
    let penetrationDepth := 2 * sphere.radius + 0.1 - distCenter
    let correction := dir.scale (penetrationDepth * 0.004)
    { p := vertex.p + correction, lastP := vertex.lastP + correction.scale 0.5 }
  else vertex

/-- The claim's reading of the normal accumulation: the RAW (unnormalized,
area-weighted) cross product is added to the three incident accumulators. -/
def claimAddTriangleNormal (ps : List Vec3) (normals : List Vec3) (t : ℕ × ℕ × ℕ) : List Vec3 :=
  let p1 := ps.getD t.1 default
  let p2 := ps.getD t.2.1 default
  let p3 := ps.getD t.2.2 default
  let n := (p2 - p1).cross (p3 - p1)
  let n1 := normals.set t.1 (normals.getD t.1 default + n)
  let n2 := n1.set t.2.1 (n1.getD t.2.1 default + n)
  n2.set t.2.2 (n2.getD t.2.2 default + n)

/-- The claim's accumulation phase (raw cross products). -/
def claimAccumNormals (ps : List Vec3) (indexData : List ℕ) : List Vec3 :=
  (triples indexData).foldl (claimAddTriangleNormal ps) (ps.map fun _ => 0)

/-- Sum of a list of vectors. -/
def vecSum : List Vec3 → Vec3
  | [] => 0
  | v :: rest => v + vecSum rest

/-- The amended spec wording of the accumulator of vertex `i`: the sum, over
all triangles, of one NORMALIZED face-normal contribution per incidence of
`i` in the triangle. -/
def specAccumAt (ps : List Vec3) (indexData : List ℕ) (i : ℕ) : Vec3 :=
  vecSum ((triples indexData).map fun t =>
    let n := calculateTriangleNormal (ps.getD t.1 default) (ps.getD t.2.1 default)
      (ps.getD t.2.2 default)
    (if t.1 = i then n else 0) + (if t.2.1 = i then n else 0) + (if t.2.2 = i then n else 0))

/-- The undirected edges produced from vertex `i`: one `(min, max)` pair per
present candidate neighbor. -/
def producedFrom (vXCount vZCount i : ℕ) : List (ℕ × ℕ) :=
  (neighborIndices vXCount vZCount i).filterMap fun o => o.map fun j => (min i j, max i j)

/-- All undirected constraint edges produced during one Relaxer pass over a
`vXCount × vZCount` grid, with multiplicity. -/
def producedEdges (vXCount vZCount : ℕ) : List (ℕ × ℕ) :=
  (List.range (vXCount * vZCount)).flatMap (producedFrom vXCount vZCount)

/-- Row-major vertex index of grid coordinates `(x, z)`. -/
def gridIdx (vXCount x z : ℕ) : ℕ := z * vXCount + x

/-- The undirected pair of grid nodes `(x1,z1)` and `(x2,z2)` is hit when the
producing vertex `(xi,zi)` is one endpoint and the slot target `(xt,zt)` the
other. -/
def hits (xi zi xt zt x1 z1 x2 z2 : ℕ) : Prop :=
  (xi = x1 ∧ zi = z1 ∧ xt = x2 ∧ zt = z2) ∨ (xi = x2 ∧ zi = z2 ∧ xt = x1 ∧ zt = z1)

instance (xi zi xt zt x1 z1 x2 z2 : ℕ) : Decidable (hits xi zi xt zt x1 z1 x2 z2) := by
  unfold hits
  infer_instance

/-! ### Basic component lemmas -/

@[simp] theorem Vec3.zero_x : (0 : Vec3).x = 0 := rfl
@[simp] theorem Vec3.zero_y : (0 : Vec3).y = 0 := rfl
@[simp] theorem Vec3.zero_z : (0 : Vec3).z = 0 := rfl
@[simp] theorem Vec3.add_x (a b : Vec3) : (a + b).x = a.x + b.x := rfl
@[simp] theorem Vec3.add_y (a b : Vec3) : (a + b).y = a.y + b.y := rfl
@[simp] theorem Vec3.add_z (a b : Vec3) : (a + b).z = a.z + b.z := rfl
@[simp] theorem Vec3.sub_x (a b : Vec3) : (a - b).x = a.x - b.x := rfl
@[simp] theorem Vec3.sub_y (a b : Vec3) : (a - b).y = a.y - b.y := rfl
@[simp] theorem Vec3.sub_z (a b : Vec3) : (a - b).z = a.z - b.z := rfl
@[simp] theorem Vec3.scale_x (v : Vec3) (s : ℝ) : (v.scale s).x = v.x * s := rfl
@[simp] theorem Vec3.scale_y (v : Vec3) (s : ℝ) : (v.scale s).y = v.y * s := rfl
@[simp] theorem Vec3.scale_z (v : Vec3) (s : ℝ) : (v.scale s).z = v.z * s := rfl
@[simp] theorem Vec3.mk_x (a b c : ℝ) : (Vec3.mk a b c).x = a := rfl
@[simp] theorem Vec3.mk_y (a b c : ℝ) : (Vec3.mk a b c).y = b := rfl
@[simp] theorem Vec3.mk_z (a b c : ℝ) : (Vec3.mk a b c).z = c := rfl

theorem Vec3.add_assoc (a b c : Vec3) : a + b + c = a + (b + c) := by
  ext <;> simp <;> ring

theorem getD_map_lt {α β : Type} (f : α → β) (l : List α) (i : ℕ) (d₁ : α) (d₂ : β)
    (hi : i < l.length) : (l.map f).getD i d₂ = f (l.getD i d₁) := by
  rw [List.getD_eq_getElem?_getD, List.getElem?_map, List.getElem?_eq_getElem hi,
    List.getD_eq_getElem?_getD, List.getElem?_eq_getElem hi]
  rfl

@[simp] theorem Vec3.add_zero (a : Vec3) : a + 0 = a := by ext <;> simp

@[simp] theorem Vec3.zero_add (a : Vec3) : 0 + a = a := by ext <;> simp

/-! ### Claim C10 — each single constraint correction preserves the sum of the
two linked positions -/

/-- C10: one constraint resolution adds the correction to `vertex.p` and
subtracts the same vector from `neighbor.p`, so the sum (hence the midpoint)
of the two linked positions is unchanged. -/
theorem resolvePair_preserves_sum (restLength relaxFactor : ℝ) (vp np : Vec3) :
    (resolvePair restLength relaxFactor vp np).1 + (resolvePair restLength relaxFactor vp np).2 =
      vp + np := by
  unfold resolvePair
  ext <;> simp only [Vec3.add_x, Vec3.add_y, Vec3.add_z, Vec3.sub_x, Vec3.sub_y, Vec3.sub_z,
    Vec3.scale_x, Vec3.scale_y, Vec3.scale_z] <;> ring

/-! ### Claim C6 — the Position Integrator is exactly the damping-free Verlet
update -/

/-- C6: one Position Integrator update maps every vertex to
`newP = 2·p − lastP + a·dt²` with `a = (0,−9.8,0)` the constant gravity and
`lastP` reset to the pre-update `p`; nothing else (in particular no damping
factor) is applied. -/
theorem updatePositions_verlet (dt : ℝ) (vs : List Vertex) :
    (updatePositions dt vs).length = vs.length ∧
    ∀ i, i < vs.length →
      (updatePositions dt vs).getD i default = specIntegrateVertex dt (vs.getD i default) := by
  constructor
  · simp [updatePositions]
  · intro i hi
    unfold updatePositions specIntegrateVertex
    rw [getD_map_lt _ vs i default default hi]
    ext <;> simp only [Vec3.add_x, Vec3.add_y, Vec3.add_z, Vec3.sub_x, Vec3.sub_y, Vec3.sub_z,
      Vec3.scale_x, Vec3.scale_y, Vec3.scale_z] <;> ring

/-- Witness for C6 at a concrete vertex. -/
theorem updatePositions_verlet_witness :
    (updatePositions 1 [⟨⟨1, 2, 3⟩, ⟨0, 0, 0⟩⟩]).getD 0 default =
      specIntegrateVertex 1 (([⟨⟨1, 2, 3⟩, ⟨0, 0, 0⟩⟩] : List Vertex).getD 0 default) :=
  (updatePositions_verlet 1 [⟨⟨1, 2, 3⟩, ⟨0, 0, 0⟩⟩]).2 0 (by simp)

/-! ### Claim C9 — step on an unpopulated cloth faults instead of operating -/

/-- C9: calling `step` before mesh generation has populated the cloth's
vertex array or packed buffer yields the invalid-state error branch (the
source's `cloth.vertices!` / `cloth.data!` dereference of an absent value);
no vertex state or buffer is produced. -/
theorem step_unpopulated_faults (dt : ℝ) (cloth : Cloth) (sphere : Sphere) (ground : Box)
    (h : cloth.vertices = none ∨ cloth.data = none) :
    ∃ msg, step dt cloth sphere ground = Except.error msg := by
  rcases h with h | h
  · exact ⟨_, by rw [step, h]⟩
  · cases hv : cloth.vertices with
    | none => exact ⟨_, by rw [step, hv]⟩
    | some vs0 => exact ⟨_, by rw [step, hv, h]⟩

/-- Witness for C9: a cloth whose vertices and buffer were never generated. -/
theorem step_unpopulated_faults_witness :
    ∃ msg, step 1 ⟨0, 1, 1, (1, 1), none, none⟩ ⟨0, 1⟩ ⟨0, 5, 1, 5⟩ = Except.error msg :=
  step_unpopulated_faults 1 ⟨0, 1, 1, (1, 1), none, none⟩ ⟨0, 1⟩ ⟨0, 5, 1, 5⟩ (Or.inl rfl)

/-! ### Claim C7 — step drives exactly 10 substeps then one buffer write and
one normal recomputation -/

theorem foldl_range_const {α : Type} (f : α → α) (n : ℕ) (x : α) :
    (List.range n).foldl (fun a _ => f a) x = f^[n] x := by
  induction n with
  | zero => simp
  | succ k ih =>
    rw [List.range_succ, List.foldl_append, ih, Function.iterate_succ_apply']
    rfl

/-- C7: on a populated cloth, `step dt` computes
`restD = (width/divisionsX, length/divisionsY)`, runs the
Integrator → Relaxer → Collision-Resolver substep exactly 10 times with
`subDt = dt/10` on the vertex state, and only then writes positions into the
packed buffer and recomputes normals, once each. -/
theorem step_pipeline (dt : ℝ) (cloth : Cloth) (sphere : Sphere) (ground : Box)
    (vs0 : List Vertex) (data : ClothData)
    (hv : cloth.vertices = some vs0) (hd : cloth.data = some data) :
    step dt cloth sphere ground = Except.ok
      (finishFrame cloth data
        ((subStep cloth.divisions.1 cloth.divisions.2
            (cloth.width / (cloth.divisions.1 : ℝ), cloth.length / (cloth.divisions.2 : ℝ))
            cloth.p sphere ground (dt / 10))^[10] vs0)) := by
  unfold step
  rw [hv, hd]
  dsimp only
  rw [foldl_range_const (subStep cloth.divisions.1 cloth.divisions.2 _ cloth.p sphere ground _) 10 vs0]
  norm_num [finishFrame]

/-- Witness for C7 on a concrete (empty but populated) cloth. -/
theorem step_pipeline_witness :
    step 1 ⟨0, 1, 1, (1, 1), some [], some ⟨[], []⟩⟩ ⟨0, 1⟩ ⟨0, 5, 1, 5⟩ = Except.ok
      (finishFrame ⟨0, 1, 1, (1, 1), some [], some ⟨[], []⟩⟩ ⟨[], []⟩
        ((subStep 1 1 ((1 : ℝ) / ((1 : ℕ) : ℝ), (1 : ℝ) / ((1 : ℕ) : ℝ))
            0 ⟨0, 1⟩ ⟨0, 5, 1, 5⟩ ((1 : ℝ) / 10))^[10] [])) :=
  step_pipeline 1 ⟨0, 1, 1, (1, 1), some [], some ⟨[], []⟩⟩ ⟨0, 1⟩ ⟨0, 5, 1, 5⟩ [] ⟨[], []⟩ rfl rfl

/-! ### Claim C5 — the Relaxer pass refines the spec's description -/

theorem restFor_eq_spec (restD : ℝ × ℝ) (nI : ℕ) :
    restFor restD nI = (specRestLength restD nI, specRelaxFactor nI) := by
  unfold restFor specRestLength specRelaxFactor
  by_cases h1 : nI ≤ 3
  · rw [if_pos (by omega : nI < 4), if_pos h1, if_pos h1]
  · by_cases h2 : nI ≤ 5
    · rw [if_neg (by omega : ¬nI < 4), if_pos (by omega : nI < 6), if_neg h1, if_pos h2,
        if_neg h1, if_pos h2]
      by_cases hp : nI % 2 = 0
      · rw [if_pos hp, if_pos hp]
        refine Prod.ext ?_ rfl
        ring
      · rw [if_neg hp, if_neg hp]
        refine Prod.ext ?_ rfl
        ring
    · rw [if_neg (by omega : ¬nI < 4), if_neg (by omega : ¬nI < 6), if_neg h1, if_neg h2,
        if_neg h1, if_neg h2]
      refine Prod.ext ?_ rfl
      ring_nf

theorem relaxSlot_fst (restD : ℝ × ℝ) (i : ℕ) (acc : List Vertex × List ℝ) (nI j : ℕ) :
    (relaxSlot restD i acc (nI, some j)).1 = specResolveLink restD i acc.1 (nI, j) := by
  unfold relaxSlot specResolveLink resolvePair
  dsimp only
  rw [restFor_eq_spec]

theorem slots_fold_fst (restD : ℝ × ℝ) (i : ℕ) (l : List (ℕ × Option ℕ))
    (acc : List Vertex × List ℝ) :
    (l.foldl (relaxSlot restD i) acc).1 =
      (l.filterMap fun s => s.2.map fun j => (s.1, j)).foldl (specResolveLink restD i) acc.1 := by
  induction l generalizing acc with
  | nil => rfl
  | cons s rest ih =>
    obtain ⟨nI, o⟩ := s
    cases o with
    | none =>
      rw [List.foldl_cons]
      have hf : List.filterMap (fun s => Option.map (fun j => (s.1, j)) s.2)
          (((nI, none) : ℕ × Option ℕ) :: rest) =
          List.filterMap (fun s => Option.map (fun j => (s.1, j)) s.2) rest := by
        simp [List.filterMap_cons]
      rw [hf]
      exact ih acc
    | some j =>
      rw [List.foldl_cons]
      have hf : List.filterMap (fun s => Option.map (fun j => (s.1, j)) s.2)
          (((nI, some j) : ℕ × Option ℕ) :: rest) =
          (nI, j) :: List.filterMap (fun s => Option.map (fun j => (s.1, j)) s.2) rest := by
        simp [List.filterMap_cons]
      rw [hf, List.foldl_cons, ih, relaxSlot_fst]

theorem range_fold_fst (vX vZ : ℕ) (restD : ℝ × ℝ) (l : List ℕ) (acc : List Vertex × List ℝ) :
    (l.foldl (relaxVertex vX vZ restD) acc).1 =
      l.foldl (fun vsAcc i => (specLinks vX vZ i).foldl (specResolveLink restD i) vsAcc) acc.1 := by
  induction l generalizing acc with
  | nil => rfl
  | cons i rest ih =>
    rw [List.foldl_cons, List.foldl_cons, ih]
    congr 1
    exact slots_fold_fst restD i _ acc

/-- C5: the source's Gauss-Seidel pass is exactly the spec's description:
ascending vertex order, per-link class-selected rest length
(structural `restD.x`/`restD.y` by parity at 0.2, bend twice the structural
length at 0.2, shear the diagonal at 0.1), correction
`delta × ((len − restLength)/len) × factor` added to the vertex and
subtracted from the neighbor, with every update visible to the rest of the
same pass. -/
theorem solveConstraints_eq_specRelaxPass (divX divY : ℕ) (restD : ℝ × ℝ) (vs : List Vertex) :
    solveConstraints divX divY restD vs = specRelaxPass divX divY restD vs := by
  unfold solveConstraints solveConstraintsAux specRelaxPass
  exact range_fold_fst (divX + 1) (divY + 1) restD (List.range vs.length) (vs, [])

/-! ### Claim C1 — the sphere response's penetration is measured from the
sphere surface, not the sphere center -/

theorem sqrt_nine : Real.sqrt 9 = 3 := by
  rw [show (9 : ℝ) = 3 ^ 2 by norm_num, Real.sqrt_sq (by norm_num : (0 : ℝ) ≤ 3)]

/-- Counterexample to C1 as stated: for the sphere of radius 2.9 centered at
the origin and a vertex at world position (3,0,0) (touching the skin), the
source's correction displaces the vertex by 2.9 × 0.004 along x, while the
claim's `penetration = radius + 0.1 − distance(center)` formula predicts a
zero correction. -/
theorem sphereCollide_penetration_counterexample :
    (sphereCollide ⟨3, 0, 0⟩ ⟨⟨0, 0, 0⟩, 2.9⟩ ⟨⟨3, 0, 0⟩, ⟨3, 0, 0⟩⟩).p.x ≠
      (claimSphereCollide ⟨3, 0, 0⟩ ⟨⟨0, 0, 0⟩, 2.9⟩ ⟨⟨3, 0, 0⟩, ⟨3, 0, 0⟩⟩).p.x := by
  have hd : Vec3.distance ⟨3, 0, 0⟩ ⟨0, 0, 0⟩ = 3 := by
    unfold Vec3.distance Vec3.magnitude Vec3.normSq
    rw [show ((⟨3, 0, 0⟩ : Vec3) - ⟨0, 0, 0⟩) = ⟨3, 0, 0⟩ by ext <;> simp]
    rw [show ((3 : ℝ) * 3 + 0 * 0 + 0 * 0) = 9 by norm_num, sqrt_nine]
  unfold sphereCollide claimSphereCollide
  dsimp only
  rw [hd]
  rw [if_pos (by norm_num : (3 : ℝ) - 2.9 ≤ 0.1), if_pos (by norm_num : (3 : ℝ) - 2.9 ≤ 0.1)]
  unfold Vec3.normalize Vec3.magnitude Vec3.normSq
  simp only [Vec3.add_x, Vec3.scale_x, Vec3.sub_x, Vec3.sub_y, Vec3.sub_z, Vec3.mk_x, Vec3.mk_y,
    Vec3.mk_z]
  rw [show ((3 : ℝ) - 0) * (3 - 0) + (0 - 0) * (0 - 0) + (0 - 0) * (0 - 0) = 9 by norm_num,
    sqrt_nine]
  norm_num

/-- C1 amended: the source's sphere response, for every input: if
`distance(center) − radius ≤ 0.1` the soft correction uses
`penetration = 2·radius + 0.1 − distance(center)` (i.e. radius + skin −
distance-from-surface), added to the position with half added to the
previous position; otherwise the vertex is untouched. -/
theorem sphereCollide_amended (gVertexP : Vec3) (sphere : Sphere) (vertex : Vertex) :
    sphereCollide gVertexP sphere vertex = amendedSphereCollide gVertexP sphere vertex := by
  unfold sphereCollide amendedSphereCollide
  dsimp only
  by_cases h : Vec3.distance gVertexP sphere.p - sphere.radius ≤ 0.1
  · rw [if_pos h, if_pos h]
    ext <;> simp only [Vec3.add_x, Vec3.add_y, Vec3.add_z, Vec3.scale_x, Vec3.scale_y,
      Vec3.scale_z] <;> ring
  · rw [if_neg h, if_neg h]

/-! ### Claim C2 — face normals are normalized before accumulation -/

theorem getD_set_self {α : Type} (l : List α) (i : ℕ) (a d : α) (h : i < l.length) :
    (l.set i a).getD i d = a := by
  rw [List.getD_eq_getElem?_getD, List.getElem?_set_self h]
  rfl

theorem getD_set_ne {α : Type} (l : List α) (i j : ℕ) (a d : α) (h : i ≠ j) :
    (l.set i a).getD j d = l.getD j d := by
  rw [List.getD_eq_getElem?_getD, List.getElem?_set_ne h, List.getD_eq_getElem?_getD]

theorem sqrt_four : Real.sqrt 4 = 2 := by
  rw [show (4 : ℝ) = 2 ^ 2 by norm_num, Real.sqrt_sq (by norm_num : (0 : ℝ) ≤ 2)]

/-- Counterexample to C2 as stated: one triangle with vertices (0,0,0),
(2,0,0), (0,1,0) has raw cross product (0,0,2); the source adds the
normalized (0,0,1) to the accumulators, not the raw (area-weighted) vector
the claim describes. -/
theorem accumNormals_counterexample :
    ((accumNormals [⟨0, 0, 0⟩, ⟨2, 0, 0⟩, ⟨0, 1, 0⟩] [0, 1, 2]).getD 0 default).z ≠
      ((claimAccumNormals [⟨0, 0, 0⟩, ⟨2, 0, 0⟩, ⟨0, 1, 0⟩] [0, 1, 2]).getD 0 default).z := by
  have ht : triples [0, 1, 2] = [(0, 1, 2)] := rfl
  unfold accumNormals claimAccumNormals
  rw [ht]
  simp only [List.map_cons, List.map_nil, List.foldl_cons, List.foldl_nil]
  unfold addTriangleNormal claimAddTriangleNormal calculateTriangleNormal
  unfold Vec3.normalize Vec3.magnitude Vec3.normSq Vec3.cross
  norm_num [List.set, List.getD, sqrt_four]

theorem set3_getD (acc : List Vec3) (i1 i2 i3 i : ℕ) (n : Vec3) (hi : i < acc.length) :
    (((acc.set i1 (acc.getD i1 default + n)).set i2
        ((acc.set i1 (acc.getD i1 default + n)).getD i2 default + n)).set i3
          (((acc.set i1 (acc.getD i1 default + n)).set i2
            ((acc.set i1 (acc.getD i1 default + n)).getD i2 default + n)).getD i3 default + n)).getD
      i default =
    acc.getD i default +
      ((if i1 = i then n else 0) + (if i2 = i then n else 0) + (if i3 = i then n else 0)) := by
  have l1 : (acc.set i1 (acc.getD i1 default + n)).length = acc.length := by simp
  have hA : (acc.set i1 (acc.getD i1 default + n)).getD i default =
      acc.getD i default + (if i1 = i then n else 0) := by
    by_cases h1 : i1 = i
    · subst h1
      rw [getD_set_self _ _ _ _ hi, if_pos rfl]
    · rw [getD_set_ne _ _ _ _ _ h1, if_neg h1, Vec3.add_zero]
  have hB : ((acc.set i1 (acc.getD i1 default + n)).set i2
      ((acc.set i1 (acc.getD i1 default + n)).getD i2 default + n)).getD i default =
      (acc.set i1 (acc.getD i1 default + n)).getD i default + (if i2 = i then n else 0) := by
    by_cases h2 : i2 = i
    · subst h2
      rw [getD_set_self _ _ _ _ (by rw [l1]; exact hi), if_pos rfl]
    · rw [getD_set_ne _ _ _ _ _ h2, if_neg h2, Vec3.add_zero]
  by_cases h3 : i3 = i
  · subst h3
    rw [getD_set_self _ _ _ _ (by simp [l1]; exact hi), hB, hA, if_pos rfl]
    ext <;> simp only [Vec3.add_x, Vec3.add_y, Vec3.add_z, Vec3.zero_x, Vec3.zero_y,
      Vec3.zero_z] <;> ring
  · rw [getD_set_ne _ _ _ _ _ h3, hB, hA, if_neg h3]
    ext <;> simp only [Vec3.add_x, Vec3.add_y, Vec3.add_z, Vec3.zero_x, Vec3.zero_y,
      Vec3.zero_z] <;> ring

theorem addTriangleNormal_getD (ps acc : List Vec3) (t : ℕ × ℕ × ℕ) (i : ℕ)
    (hi : i < acc.length) :
    (addTriangleNormal ps acc t).getD i default =
      acc.getD i default +
        ((if t.1 = i then calculateTriangleNormal (ps.getD t.1 default) (ps.getD t.2.1 default)
            (ps.getD t.2.2 default) else 0) +
          (if t.2.1 = i then calculateTriangleNormal (ps.getD t.1 default) (ps.getD t.2.1 default)
            (ps.getD t.2.2 default) else 0) +
          (if t.2.2 = i then calculateTriangleNormal (ps.getD t.1 default) (ps.getD t.2.1 default)
            (ps.getD t.2.2 default) else 0)) := by
  unfold addTriangleNormal
  exact set3_getD acc t.1 t.2.1 t.2.2 i _ hi

theorem addTriangleNormal_length (ps acc : List Vec3) (t : ℕ × ℕ × ℕ) :
    (addTriangleNormal ps acc t).length = acc.length := by
  unfold addTriangleNormal
  simp

theorem accumFold_getD (ps : List Vec3) (ts : List (ℕ × ℕ × ℕ)) (acc : List Vec3) (i : ℕ)
    (hi : i < acc.length) :
    (ts.foldl (addTriangleNormal ps) acc).getD i default =
      acc.getD i default + vecSum (ts.map fun t =>
        let n := calculateTriangleNormal (ps.getD t.1 default) (ps.getD t.2.1 default)
          (ps.getD t.2.2 default)
        (if t.1 = i then n else 0) + (if t.2.1 = i then n else 0) +
          (if t.2.2 = i then n else 0)) := by
  induction ts generalizing acc with
  | nil =>
    rw [List.foldl_nil, List.map_nil]
    rw [show vecSum [] = 0 from rfl, Vec3.add_zero]
  | cons t rest ih =>
    rw [List.foldl_cons, List.map_cons]
    rw [ih _ (by rw [addTriangleNormal_length]; exact hi)]
    rw [addTriangleNormal_getD ps acc t i hi]
    dsimp only
    rw [show ∀ v l, vecSum (v :: l) = v + vecSum l from fun v l => rfl]
    rw [Vec3.add_assoc]

/-- C2 amended: the Normal Recomputer's per-vertex normal is the
normalization — applied only after all triangles have been processed — of
the sum over all triangles of one NORMALIZED face-normal contribution
(`(p2−p1)×(p3−p1)` normalized, so uniform-weighted rather than
area-weighted) per incidence of the vertex in the triangle. -/
theorem vertexNormals_spec (ps : List Vec3) (indexData : List ℕ) (i : ℕ) (hi : i < ps.length) :
    (vertexNormals ps indexData).getD i default = Vec3.normalize (specAccumAt ps indexData i) := by
  have hfoldlen : ∀ (ts : List (ℕ × ℕ × ℕ)) (acc : List Vec3),
      (ts.foldl (addTriangleNormal ps) acc).length = acc.length := by
    intro ts
    induction ts with
    | nil => intro acc; rfl
    | cons t rest ih => intro acc; rw [List.foldl_cons, ih, addTriangleNormal_length]
  have hlen : (accumNormals ps indexData).length = ps.length := by
    unfold accumNormals
    rw [hfoldlen, List.length_map]
  unfold vertexNormals
  rw [getD_map_lt Vec3.normalize _ i default default (by rw [hlen]; exact hi)]
  congr 1
  unfold specAccumAt accumNormals
  rw [accumFold_getD ps _ _ i (by rw [List.length_map]; exact hi)]
  rw [getD_map_lt (fun _ => (0 : Vec3)) ps i default default hi]
  exact Vec3.zero_add _

/-- Witness for C2's amended theorem at the one-triangle example. -/
theorem vertexNormals_spec_witness :
    (vertexNormals [⟨0, 0, 0⟩, ⟨2, 0, 0⟩, ⟨0, 1, 0⟩] [0, 1, 2]).getD 0 default =
      Vec3.normalize (specAccumAt [⟨0, 0, 0⟩, ⟨2, 0, 0⟩, ⟨0, 1, 0⟩] [0, 1, 2] 0) :=
  vertexNormals_spec [⟨0, 0, 0⟩, ⟨2, 0, 0⟩, ⟨0, 1, 0⟩] [0, 1, 2] 0 (by simp)

/-! ### Claim C4 — ground response: hard lift to the skin height, friction and
restitution on the implied velocity -/

/-- C4: for a vertex whose entry world height is at most 0.1 and whose
horizontal world coordinates lie strictly inside the ground rectangle (and
which the sphere branch leaves alone), the Collision Resolver adds the hard
vertical correction `(0,1,0)·(0.1 − height)` to the position, leaving world
height exactly 0.1 (hence nonnegative, and `step` ends with the resolver, so
this is the height after the frame when the condition holds at the last
substep); it then forms `v = p − lastP`, scales `v.x`, `v.z` by `1 − 0.01`
and `v.y` by `−0.2`, and resets `lastP = p − v`, so the resulting implied
vertical velocity is the sign-flipped restitution-scaled one. -/
theorem collideVertex_ground (clothP : Vec3) (sphere : Sphere) (ground : Box) (vertex : Vertex)
    (hy : (clothP + vertex.p).y ≤ 0.1)
    (hx1 : (clothP + vertex.p).x < ground.width / 2)
    (hx2 : -(ground.width / 2) < (clothP + vertex.p).x)
    (hz1 : (clothP + vertex.p).z < ground.length / 2)
    (hz2 : -(ground.length / 2) < (clothP + vertex.p).z)
    (hs : ¬Vec3.distance (clothP + vertex.p) sphere.p - sphere.radius ≤ 0.1) :
    (collideVertex clothP sphere ground vertex).p =
        vertex.p + (Vec3.mk 0 1 0).scale (0.1 - (clothP + vertex.p).y) ∧
      (clothP + (collideVertex clothP sphere ground vertex).p).y = 0.1 ∧
      0 ≤ (clothP + (collideVertex clothP sphere ground vertex).p).y ∧
      (collideVertex clothP sphere ground vertex).lastP =
        (collideVertex clothP sphere ground vertex).p -
          Vec3.mk (((collideVertex clothP sphere ground vertex).p - vertex.lastP).x * (1 - mu))
            (((collideVertex clothP sphere ground vertex).p - vertex.lastP).y * (-cr))
            (((collideVertex clothP sphere ground vertex).p - vertex.lastP).z * (1 - mu)) ∧
      ((collideVertex clothP sphere ground vertex).p -
          (collideVertex clothP sphere ground vertex).lastP).y =
        -cr * ((collideVertex clothP sphere ground vertex).p - vertex.lastP).y := by
  have hcv : collideVertex clothP sphere ground vertex =
      groundCollide (clothP + vertex.p) ground vertex := by
    unfold collideVertex sphereCollide
    dsimp only
    rw [if_neg hs]
  rw [hcv]
  unfold groundCollide
  dsimp only
  rw [if_pos ⟨hy, hx1, hx2, hz1, hz2⟩]
  refine ⟨rfl, ?_, ?_, rfl, ?_⟩
  · simp only [Vec3.add_y, Vec3.scale_y, Vec3.mk_y]
    ring
  · simp only [Vec3.add_y, Vec3.scale_y, Vec3.mk_y]
    nlinarith [sq_nonneg (1 : ℝ)]
  · simp only [Vec3.sub_y, Vec3.mk_y, Vec3.add_y, Vec3.scale_y]
    ring

/-- Witness for C4 at a concrete penetrating vertex far from the sphere. -/
theorem collideVertex_ground_witness :
    (collideVertex 0 ⟨⟨0, 100, 0⟩, 1⟩ ⟨0, 5, 0.1, 5⟩ ⟨⟨0, 0.05, 0⟩, ⟨0, 0.2, 0⟩⟩).p =
        (⟨0, 0.05, 0⟩ : Vec3) +
          (Vec3.mk 0 1 0).scale (0.1 - ((0 : Vec3) + ⟨0, 0.05, 0⟩).y) ∧
      ((0 : Vec3) + (collideVertex 0 ⟨⟨0, 100, 0⟩, 1⟩ ⟨0, 5, 0.1, 5⟩
          ⟨⟨0, 0.05, 0⟩, ⟨0, 0.2, 0⟩⟩).p).y = 0.1 ∧
      0 ≤ ((0 : Vec3) + (collideVertex 0 ⟨⟨0, 100, 0⟩, 1⟩ ⟨0, 5, 0.1, 5⟩
          ⟨⟨0, 0.05, 0⟩, ⟨0, 0.2, 0⟩⟩).p).y ∧
      (collideVertex 0 ⟨⟨0, 100, 0⟩, 1⟩ ⟨0, 5, 0.1, 5⟩ ⟨⟨0, 0.05, 0⟩, ⟨0, 0.2, 0⟩⟩).lastP =
        (collideVertex 0 ⟨⟨0, 100, 0⟩, 1⟩ ⟨0, 5, 0.1, 5⟩ ⟨⟨0, 0.05, 0⟩, ⟨0, 0.2, 0⟩⟩).p -
          Vec3.mk
            (((collideVertex 0 ⟨⟨0, 100, 0⟩, 1⟩ ⟨0, 5, 0.1, 5⟩
                ⟨⟨0, 0.05, 0⟩, ⟨0, 0.2, 0⟩⟩).p - ⟨0, 0.2, 0⟩).x * (1 - mu))
            (((collideVertex 0 ⟨⟨0, 100, 0⟩, 1⟩ ⟨0, 5, 0.1, 5⟩
                ⟨⟨0, 0.05, 0⟩, ⟨0, 0.2, 0⟩⟩).p - ⟨0, 0.2, 0⟩).y * (-cr))
            (((collideVertex 0 ⟨⟨0, 100, 0⟩, 1⟩ ⟨0, 5, 0.1, 5⟩
                ⟨⟨0, 0.05, 0⟩, ⟨0, 0.2, 0⟩⟩).p - ⟨0, 0.2, 0⟩).z * (1 - mu)) ∧
      ((collideVertex 0 ⟨⟨0, 100, 0⟩, 1⟩ ⟨0, 5, 0.1, 5⟩ ⟨⟨0, 0.05, 0⟩, ⟨0, 0.2, 0⟩⟩).p -
          (collideVertex 0 ⟨⟨0, 100, 0⟩, 1⟩ ⟨0, 5, 0.1, 5⟩
            ⟨⟨0, 0.05, 0⟩, ⟨0, 0.2, 0⟩⟩).lastP).y =
        -cr * ((collideVertex 0 ⟨⟨0, 100, 0⟩, 1⟩ ⟨0, 5, 0.1, 5⟩
            ⟨⟨0, 0.05, 0⟩, ⟨0, 0.2, 0⟩⟩).p - ⟨0, 0.2, 0⟩).y :=
  collideVertex_ground 0 ⟨⟨0, 100, 0⟩, 1⟩ ⟨0, 5, 0.1, 5⟩ ⟨⟨0, 0.05, 0⟩, ⟨0, 0.2, 0⟩⟩
    (by simp only [Vec3.add_y, Vec3.zero_y, Vec3.mk_y]; norm_num)
    (by simp only [Vec3.add_x, Vec3.zero_x, Vec3.mk_x]; norm_num)
    (by simp only [Vec3.add_x, Vec3.zero_x, Vec3.mk_x]; norm_num)
    (by simp only [Vec3.add_z, Vec3.zero_z, Vec3.mk_z]; norm_num)
    (by simp only [Vec3.add_z, Vec3.zero_z, Vec3.mk_z]; norm_num)
    (by
      unfold Vec3.distance Vec3.magnitude Vec3.normSq
      rw [show (((0 : Vec3) + ⟨0, 0.05, 0⟩) - ⟨0, 100, 0⟩) = (⟨0, -99.95, 0⟩ : Vec3) by
        ext <;> norm_num]
      rw [show ((0 : ℝ) * 0 + -99.95 * -99.95 + 0 * 0) = 99.95 ^ 2 by norm_num]
      rw [Real.sqrt_sq (by norm_num : (0 : ℝ) ≤ 99.95)]
      norm_num)

/-! ### Claim C8 — the Relaxer divides by the delta length with no epsilon
floor, and the zero-denominator branch is reachable -/

theorem relaxSlot_mem (restD : ℝ × ℝ) (i : ℕ) (acc : List Vertex × List ℝ)
    (slot : ℕ × Option ℕ) (x : ℝ) (hx : x ∈ acc.2) : x ∈ (relaxSlot restD i acc slot).2 := by
  unfold relaxSlot
  cases slot.2 with
  | none => exact hx
  | some j => exact List.mem_append_left _ hx

theorem slots_foldl_mem (restD : ℝ × ℝ) (i : ℕ) (l : List (ℕ × Option ℕ))
    (acc : List Vertex × List ℝ) (x : ℝ) (hx : x ∈ acc.2) :
    x ∈ (l.foldl (relaxSlot restD i) acc).2 := by
  induction l generalizing acc with
  | nil => exact hx
  | cons s rest ih => exact ih _ (relaxSlot_mem restD i acc s x hx)

theorem relaxVertex_mem (vX vZ : ℕ) (restD : ℝ × ℝ) (acc : List Vertex × List ℝ) (i : ℕ)
    (x : ℝ) (hx : x ∈ acc.2) : x ∈ (relaxVertex vX vZ restD acc i).2 :=
  slots_foldl_mem restD i _ acc x hx

/-- C8: on a cloth input with two coincident linked vertices (a 2 × 1 grid
with both vertices at the origin), the Relaxer's correction divisor `len` is
exactly 0 — the division by zero in
`(len − restLength)/len` is reached, and no epsilon guard exists anywhere on
the path (over the reals the correction degenerates instead of going
non-finite, but the unguarded zero-denominator division is the same). -/
theorem relaxer_zero_divisor_reachable :
    (0 : ℝ) ∈ relaxLens 1 0 (1, 1) [⟨0, 0⟩, ⟨0, 0⟩] := by
  unfold relaxLens solveConstraintsAux
  rw [show List.range ([(⟨0, 0⟩ : Vertex), ⟨0, 0⟩].length) = [0, 1] from rfl]
  rw [List.foldl_cons, List.foldl_cons, List.foldl_nil]
  refine relaxVertex_mem 2 1 (1, 1) _ 1 0 ?_
  unfold relaxVertex
  rw [show (neighborIndices 2 1 0).enum =
    [(0, none), (1, some 1), (2, none), (3, none), (4, none), (5, none), (6, none), (7, none),
      (8, none), (9, none)] from rfl]
  simp only [List.foldl_cons, List.foldl_nil]
  unfold relaxSlot
  dsimp only
  simp [Vec3.magnitude, Vec3.normSq, List.getD_cons_zero, List.getD_cons_succ]

/-! ### Claim C3 — edge production multiplicity over the grid topology -/

theorem gridIdx_mod (X x z : ℕ) (hx : x < X) : gridIdx X x z % X = x := by
  unfold gridIdx
  rw [Nat.mul_comm, Nat.mul_add_mod]
  exact Nat.mod_eq_of_lt hx

theorem gridIdx_div (X x z : ℕ) (hx : x < X) : gridIdx X x z / X = z := by
  unfold gridIdx
  rw [Nat.mul_comm, Nat.mul_add_div (by omega), Nat.div_eq_of_lt hx]
  omega

theorem gridIdx_inj' {X a b c d : ℕ} (ha : a < X) (hc : c < X)
    (h : gridIdx X a b = gridIdx X c d) : a = c ∧ b = d := by
  constructor
  · have hm := congrArg (fun t => t % X) h
    simpa [gridIdx_mod _ _ _ ha, gridIdx_mod _ _ _ hc] using hm
  · have hd := congrArg (fun t => t / X) h
    simpa [gridIdx_div _ _ _ ha, gridIdx_div _ _ _ hc] using hd

theorem gridIdx_lt_of_lex (X x1 z1 x2 z2 : ℕ) (hx1 : x1 < X)
    (h : z1 < z2 ∨ (z1 = z2 ∧ x1 < x2)) : gridIdx X x1 z1 < gridIdx X x2 z2 := by
  unfold gridIdx
  rcases h with h | ⟨rfl, h⟩
  · have h2 : (z1 + 1) * X ≤ z2 * X := Nat.mul_le_mul_right X h
    rw [Nat.succ_mul] at h2
    omega
  · omega

theorem gridIdx_lt_total (X Z x z : ℕ) (hx : x < X) (hz : z < Z) : gridIdx X x z < X * Z := by
  unfold gridIdx
  have h2 : (z + 1) * X ≤ Z * X := Nat.mul_le_mul_right X hz
  rw [Nat.succ_mul] at h2
  have h3 : Z * X = X * Z := Nat.mul_comm Z X
  omega

theorem count_filterMap_cons {α β : Type} [BEq β] [LawfulBEq β] [DecidableEq β]
    (f : α → Option β) (a : α) (l : List α) (b : β) :
    ((a :: l).filterMap f).count b =
      (if f a = some b then 1 else 0) + (l.filterMap f).count b := by
  cases h : f a with
  | none => simp [List.filterMap_cons, h]
  | some c =>
    simp only [List.filterMap_cons, h, List.count_cons]
    by_cases hc : c = b
    · subst hc
      simp [Nat.add_comm]
    · simp [hc, Ne.symm hc, beq_iff_eq]

theorem slotTerm_eq (g : Prop) [Decidable g] (I T e1 e2 : ℕ) :
    (if Option.map (fun j => (min I j, max I j)) (if g then some T else none) = some (e1, e2)
      then (1 : ℕ) else 0) =
      if g ∧ e1 ≤ e2 ∧ ((I = e1 ∧ T = e2) ∨ (I = e2 ∧ T = e1)) then 1 else 0 := by
  by_cases h : g
  · simp only [if_pos h, h, if_true, Option.map_some', Option.some.injEq, Prod.mk.injEq,
      true_and]
    refine if_congr ?_ rfl rfl
    constructor
    · rintro ⟨h1, h2⟩
      refine ⟨by rw [← h1, ← h2]; exact min_le_max, ?_⟩
      rcases le_total I T with hle | hle
      · exact Or.inl ⟨by rw [← h1, min_eq_left hle], by rw [← h2, max_eq_right hle]⟩
      · exact Or.inr ⟨by rw [← h2, max_eq_left hle], by rw [← h1, min_eq_right hle]⟩
    · rintro ⟨hle, hc⟩
      rcases hc with ⟨rfl, rfl⟩ | ⟨rfl, rfl⟩
      · rw [min_eq_left hle, max_eq_right hle]
        exact ⟨rfl, rfl⟩
      · rw [min_eq_right hle, max_eq_left hle]
        exact ⟨rfl, rfl⟩
  · simp [h]

theorem slot_iff (X : ℕ) (g : Prop) [Decidable g] (T xi zi xt zt x1 z1 x2 z2 : ℕ)
    (hxi : xi < X) (hx1 : x1 < X) (hx2 : x2 < X)
    (hxt : g → xt < X) (hT : g → T = gridIdx X xt zt)
    (hlex : z1 < z2 ∨ (z1 = z2 ∧ x1 < x2)) :
    (g ∧ gridIdx X x1 z1 ≤ gridIdx X x2 z2 ∧
      ((gridIdx X xi zi = gridIdx X x1 z1 ∧ T = gridIdx X x2 z2) ∨
        (gridIdx X xi zi = gridIdx X x2 z2 ∧ T = gridIdx X x1 z1))) ↔
      (g ∧ hits xi zi xt zt x1 z1 x2 z2) := by
  constructor
  · rintro ⟨hg, -, hc⟩
    refine ⟨hg, ?_⟩
    unfold hits
    rw [hT hg] at hc
    rcases hc with ⟨h1, h2⟩ | ⟨h1, h2⟩
    · obtain ⟨ha, hb⟩ := gridIdx_inj' hxi hx1 h1
      obtain ⟨hc', hd⟩ := gridIdx_inj' (hxt hg) hx2 h2
      exact Or.inl ⟨ha, hb, hc', hd⟩
    · obtain ⟨ha, hb⟩ := gridIdx_inj' hxi hx2 h1
      obtain ⟨hc', hd⟩ := gridIdx_inj' (hxt hg) hx1 h2
      exact Or.inr ⟨ha, hb, hc', hd⟩
  · rintro ⟨hg, hc⟩
    refine ⟨hg, (gridIdx_lt_of_lex X x1 z1 x2 z2 hx1 hlex).le, ?_⟩
    unfold hits at hc
    rw [hT hg]
    rcases hc with ⟨h1, h2, h3, h4⟩ | ⟨h1, h2, h3, h4⟩
    · exact Or.inl ⟨by rw [h1, h2], by rw [h3, h4]⟩
    · exact Or.inr ⟨by rw [h1, h2], by rw [h3, h4]⟩

theorem count_flatMap {α β : Type} [BEq β] (f : α → List β) (l : List α) (b : β) :
    (l.flatMap f).count b = (l.map fun a => (f a).count b).sum := by
  induction l with
  | nil => rfl
  | cons a rest ih => simp [List.flatMap_cons, List.count_append, ih]

theorem sum_map_add (l : List ℕ) (f g : ℕ → ℕ) :
    (l.map fun i => f i + g i).sum = (l.map f).sum + (l.map g).sum := by
  induction l with
  | nil => rfl
  | cons a rest ih => simp [ih]; omega

theorem sum_map_range_ind1 (n a : ℕ) (ha : a < n) :
    ((List.range n).map fun i => if i = a then (1 : ℕ) else 0).sum = 1 := by
  induction n with
  | zero => omega
  | succ n ih =>
    rw [List.range_succ, List.map_append, List.sum_append]
    simp only [List.map_cons, List.map_nil, List.sum_cons, List.sum_nil]
    by_cases han : a = n
    · rw [if_pos han.symm]
      have hz : ((List.range n).map fun i => if i = a then (1 : ℕ) else 0).sum = 0 := by
        rw [List.map_congr_left (fun i hi => if_neg (by
          have h2 := List.mem_range.mp hi
          omega))]
        simp
      rw [hz]
      omega
    · rw [if_neg (fun h => han h.symm), ih (by omega)]
      omega

theorem coords_eq_iff (X x z i : ℕ) (hx : x < X) :
    (i % X = x ∧ i / X = z) ↔ i = gridIdx X x z := by
  constructor
  · rintro ⟨h1, h2⟩
    have hd := Nat.div_add_mod i X
    unfold gridIdx
    subst h1
    subst h2
    rw [Nat.mul_comm]
    omega
  · rintro rfl
    exact ⟨gridIdx_mod X x z hx, gridIdx_div X x z hx⟩

theorem count_producedFrom_coords (X Z xi zi x1 z1 x2 z2 : ℕ)
    (hxi : xi < X) (hx1 : x1 < X) (hx2 : x2 < X)
    (hlex : z1 < z2 ∨ (z1 = z2 ∧ x1 < x2)) :
    (producedFrom X Z (gridIdx X xi zi)).count (gridIdx X x1 z1, gridIdx X x2 z2) =
      (if 0 < zi ∧ hits xi zi xi (zi - 1) x1 z1 x2 z2 then 1 else 0) +
      ((if xi < X - 1 ∧ hits xi zi (xi + 1) zi x1 z1 x2 z2 then 1 else 0) +
      ((if zi < Z - 1 ∧ hits xi zi xi (zi + 1) x1 z1 x2 z2 then 1 else 0) +
      ((if 0 < xi ∧ hits xi zi (xi - 1) zi x1 z1 x2 z2 then 1 else 0) +
      ((if xi < X - 2 ∧ hits xi zi (xi + 2) zi x1 z1 x2 z2 then 1 else 0) +
      ((if zi < Z - 2 ∧ hits xi zi xi (zi + 2) x1 z1 x2 z2 then 1 else 0) +
      ((if (0 < zi ∧ 0 < xi) ∧ hits xi zi (xi - 1) (zi - 1) x1 z1 x2 z2 then 1 else 0) +
      ((if (0 < zi ∧ xi < X - 1) ∧ hits xi zi (xi + 1) (zi - 1) x1 z1 x2 z2 then 1 else 0) +
      ((if (zi < Z - 1 ∧ 0 < xi) ∧ hits xi zi (xi - 1) (zi + 1) x1 z1 x2 z2 then 1 else 0) +
      ((if (zi < Z - 1 ∧ xi < X - 1) ∧ hits xi zi (xi + 1) (zi + 1) x1 z1 x2 z2 then 1 else 0) +
      0))))))))) := by
  unfold producedFrom neighborIndices
  dsimp only
  rw [gridIdx_mod X xi zi hxi, gridIdx_div X xi zi hxi]
  simp only [count_filterMap_cons, List.filterMap_nil, List.count_nil]
  simp only [slotTerm_eq]
  simp only
    [slot_iff X (0 < zi) ((zi - 1) * X + xi) xi zi xi (zi - 1) x1 z1 x2 z2 hxi hx1 hx2
      (fun _ => hxi) (fun _ => rfl) hlex,
    slot_iff X (xi < X - 1) (zi * X + xi + 1) xi zi (xi + 1) zi x1 z1 x2 z2 hxi hx1 hx2
      (fun hg => by omega) (fun _ => rfl) hlex,
    slot_iff X (zi < Z - 1) ((zi + 1) * X + xi) xi zi xi (zi + 1) x1 z1 x2 z2 hxi hx1 hx2
      (fun _ => hxi) (fun _ => rfl) hlex,
    slot_iff X (0 < xi) (zi * X + xi - 1) xi zi (xi - 1) zi x1 z1 x2 z2 hxi hx1 hx2
      (fun _ => by omega) (fun hg => by unfold gridIdx; omega) hlex,
    slot_iff X (xi < X - 2) (zi * X + xi + 2) xi zi (xi + 2) zi x1 z1 x2 z2 hxi hx1 hx2
      (fun hg => by omega) (fun _ => rfl) hlex,
    slot_iff X (zi < Z - 2) ((zi + 2) * X + xi) xi zi xi (zi + 2) x1 z1 x2 z2 hxi hx1 hx2
      (fun _ => hxi) (fun _ => rfl) hlex,
    slot_iff X (0 < zi ∧ 0 < xi) ((zi - 1) * X + xi - 1) xi zi (xi - 1) (zi - 1) x1 z1 x2 z2
      hxi hx1 hx2 (fun _ => by omega) (fun hg => by unfold gridIdx; omega) hlex,
    slot_iff X (0 < zi ∧ xi < X - 1) ((zi - 1) * X + xi + 1) xi zi (xi + 1) (zi - 1) x1 z1 x2 z2
      hxi hx1 hx2 (fun hg => by omega) (fun _ => rfl) hlex,
    slot_iff X (zi < Z - 1 ∧ 0 < xi) ((zi + 1) * X + xi - 1) xi zi (xi - 1) (zi + 1) x1 z1 x2 z2
      hxi hx1 hx2 (fun _ => by omega) (fun hg => by unfold gridIdx; omega) hlex,
    slot_iff X (zi < Z - 1 ∧ xi < X - 1) ((zi + 1) * X + xi + 1) xi zi (xi + 1) (zi + 1) x1 z1
      x2 z2 hxi hx1 hx2 (fun hg => by omega) (fun _ => rfl) hlex]

theorem count_producedFrom_structH (X Z xi zi x z : ℕ) (hxi : xi < X) (hx : x + 1 < X) :
    (producedFrom X Z (gridIdx X xi zi)).count (gridIdx X x z, gridIdx X (x + 1) z) =
      (if xi = x ∧ zi = z then 1 else 0) + (if xi = x + 1 ∧ zi = z then 1 else 0) := by
  rw [count_producedFrom_coords X Z xi zi x z (x + 1) z hxi (by omega) hx (Or.inr ⟨rfl, by omega⟩)]
  by_cases hA : xi = x ∧ zi = z
  · have hB' : ¬(xi = x + 1 ∧ zi = z) := by omega
    have h0 : ¬(0 < zi ∧ hits xi zi xi (zi - 1) x z (x + 1) z) := by
      unfold hits; omega
    have h1 : xi < X - 1 ∧ hits xi zi (xi + 1) zi x z (x + 1) z := by
      unfold hits; omega
    have h2 : ¬(zi < Z - 1 ∧ hits xi zi xi (zi + 1) x z (x + 1) z) := by
      unfold hits; omega
    have h3 : ¬(0 < xi ∧ hits xi zi (xi - 1) zi x z (x + 1) z) := by
      unfold hits; omega
    have h4 : ¬(xi < X - 2 ∧ hits xi zi (xi + 2) zi x z (x + 1) z) := by
      unfold hits; omega
    have h5 : ¬(zi < Z - 2 ∧ hits xi zi xi (zi + 2) x z (x + 1) z) := by
      unfold hits; omega
    have h6 : ¬((0 < zi ∧ 0 < xi) ∧ hits xi zi (xi - 1) (zi - 1) x z (x + 1) z) := by
      unfold hits; omega
    have h7 : ¬((0 < zi ∧ xi < X - 1) ∧ hits xi zi (xi + 1) (zi - 1) x z (x + 1) z) := by
      unfold hits; omega
    have h8 : ¬((zi < Z - 1 ∧ 0 < xi) ∧ hits xi zi (xi - 1) (zi + 1) x z (x + 1) z) := by
      unfold hits; omega
    have h9 : ¬((zi < Z - 1 ∧ xi < X - 1) ∧ hits xi zi (xi + 1) (zi + 1) x z (x + 1) z) := by
      unfold hits; omega
    rw [if_pos hA, if_neg hB', if_neg h0, if_pos h1, if_neg h2, if_neg h3, if_neg h4, if_neg h5, if_neg h6, if_neg h7, if_neg h8, if_neg h9]
  · by_cases hB : xi = x + 1 ∧ zi = z
    · have h0 : ¬(0 < zi ∧ hits xi zi xi (zi - 1) x z (x + 1) z) := by
        unfold hits; omega
      have h1 : ¬(xi < X - 1 ∧ hits xi zi (xi + 1) zi x z (x + 1) z) := by
        unfold hits; omega
      have h2 : ¬(zi < Z - 1 ∧ hits xi zi xi (zi + 1) x z (x + 1) z) := by
        unfold hits; omega
      have h3 : 0 < xi ∧ hits xi zi (xi - 1) zi x z (x + 1) z := by
        unfold hits; omega
      have h4 : ¬(xi < X - 2 ∧ hits xi zi (xi + 2) zi x z (x + 1) z) := by
        unfold hits; omega
      have h5 : ¬(zi < Z - 2 ∧ hits xi zi xi (zi + 2) x z (x + 1) z) := by
        unfold hits; omega
      have h6 : ¬((0 < zi ∧ 0 < xi) ∧ hits xi zi (xi - 1) (zi - 1) x z (x + 1) z) := by
        unfold hits; omega
      have h7 : ¬((0 < zi ∧ xi < X - 1) ∧ hits xi zi (xi + 1) (zi - 1) x z (x + 1) z) := by
        unfold hits; omega
      have h8 : ¬((zi < Z - 1 ∧ 0 < xi) ∧ hits xi zi (xi - 1) (zi + 1) x z (x + 1) z) := by
        unfold hits; omega
      have h9 : ¬((zi < Z - 1 ∧ xi < X - 1) ∧ hits xi zi (xi + 1) (zi + 1) x z (x + 1) z) := by
        unfold hits; omega
      rw [if_neg hA, if_pos hB, if_neg h0, if_neg h1, if_neg h2, if_pos h3, if_neg h4, if_neg h5, if_neg h6, if_neg h7, if_neg h8, if_neg h9]
    · have hno : ∀ xt zt, ¬hits xi zi xt zt x z (x + 1) z := by
        intro xt zt
        unfold hits
        omega
      rw [if_neg hA, if_neg hB]
      simp only [hno, and_true, true_and, and_false, false_and, if_true, if_false]

theorem count_producedFrom_structV (X Z xi zi x z : ℕ) (hxi : xi < X) (hx : x < X) (hz : z + 1 < Z) :
    (producedFrom X Z (gridIdx X xi zi)).count (gridIdx X x z, gridIdx X x (z + 1)) =
      (if xi = x ∧ zi = z then 1 else 0) + (if xi = x ∧ zi = z + 1 then 1 else 0) := by
  rw [count_producedFrom_coords X Z xi zi x z x (z + 1) hxi hx hx (Or.inl (by omega))]
  by_cases hA : xi = x ∧ zi = z
  · have hB' : ¬(xi = x ∧ zi = z + 1) := by omega
    have h0 : ¬(0 < zi ∧ hits xi zi xi (zi - 1) x z x (z + 1)) := by
      unfold hits; omega
    have h1 : ¬(xi < X - 1 ∧ hits xi zi (xi + 1) zi x z x (z + 1)) := by
      unfold hits; omega
    have h2 : zi < Z - 1 ∧ hits xi zi xi (zi + 1) x z x (z + 1) := by
      unfold hits; omega
    have h3 : ¬(0 < xi ∧ hits xi zi (xi - 1) zi x z x (z + 1)) := by
      unfold hits; omega
    have h4 : ¬(xi < X - 2 ∧ hits xi zi (xi + 2) zi x z x (z + 1)) := by
      unfold hits; omega
    have h5 : ¬(zi < Z - 2 ∧ hits xi zi xi (zi + 2) x z x (z + 1)) := by
      unfold hits; omega
    have h6 : ¬((0 < zi ∧ 0 < xi) ∧ hits xi zi (xi - 1) (zi - 1) x z x (z + 1)) := by
      unfold hits; omega
    have h7 : ¬((0 < zi ∧ xi < X - 1) ∧ hits xi zi (xi + 1) (zi - 1) x z x (z + 1)) := by
      unfold hits; omega
    have h8 : ¬((zi < Z - 1 ∧ 0 < xi) ∧ hits xi zi (xi - 1) (zi + 1) x z x (z + 1)) := by
      unfold hits; omega
    have h9 : ¬((zi < Z - 1 ∧ xi < X - 1) ∧ hits xi zi (xi + 1) (zi + 1) x z x (z + 1)) := by
      unfold hits; omega
    rw [if_pos hA, if_neg hB', if_neg h0, if_neg h1, if_pos h2, if_neg h3, if_neg h4, if_neg h5, if_neg h6, if_neg h7, if_neg h8, if_neg h9]
  · by_cases hB : xi = x ∧ zi = z + 1
    · have h0 : 0 < zi ∧ hits xi zi xi (zi - 1) x z x (z + 1) := by
        unfold hits; omega
      have h1 : ¬(xi < X - 1 ∧ hits xi zi (xi + 1) zi x z x (z + 1)) := by
        unfold hits; omega
      have h2 : ¬(zi < Z - 1 ∧ hits xi zi xi (zi + 1) x z x (z + 1)) := by
        unfold hits; omega
      have h3 : ¬(0 < xi ∧ hits xi zi (xi - 1) zi x z x (z + 1)) := by
        unfold hits; omega
      have h4 : ¬(xi < X - 2 ∧ hits xi zi (xi + 2) zi x z x (z + 1)) := by
        unfold hits; omega
      have h5 : ¬(zi < Z - 2 ∧ hits xi zi xi (zi + 2) x z x (z + 1)) := by
        unfold hits; omega
      have h6 : ¬((0 < zi ∧ 0 < xi) ∧ hits xi zi (xi - 1) (zi - 1) x z x (z + 1)) := by
        unfold hits; omega
      have h7 : ¬((0 < zi ∧ xi < X - 1) ∧ hits xi zi (xi + 1) (zi - 1) x z x (z + 1)) := by
        unfold hits; omega
      have h8 : ¬((zi < Z - 1 ∧ 0 < xi) ∧ hits xi zi (xi - 1) (zi + 1) x z x (z + 1)) := by
        unfold hits; omega
      have h9 : ¬((zi < Z - 1 ∧ xi < X - 1) ∧ hits xi zi (xi + 1) (zi + 1) x z x (z + 1)) := by
        unfold hits; omega
      rw [if_neg hA, if_pos hB, if_pos h0, if_neg h1, if_neg h2, if_neg h3, if_neg h4, if_neg h5, if_neg h6, if_neg h7, if_neg h8, if_neg h9]
    · have hno : ∀ xt zt, ¬hits xi zi xt zt x z x (z + 1) := by
        intro xt zt
        unfold hits
        omega
      rw [if_neg hA, if_neg hB]
      simp only [hno, and_true, true_and, and_false, false_and, if_true, if_false]

theorem count_producedFrom_bendH (X Z xi zi x z : ℕ) (hxi : xi < X) (hx : x + 2 < X) :
    (producedFrom X Z (gridIdx X xi zi)).count (gridIdx X x z, gridIdx X (x + 2) z) =
      (if xi = x ∧ zi = z then 1 else 0) := by
  rw [count_producedFrom_coords X Z xi zi x z (x + 2) z hxi (by omega) hx (Or.inr ⟨rfl, by omega⟩)]
  by_cases hA : xi = x ∧ zi = z
  · have h0 : ¬(0 < zi ∧ hits xi zi xi (zi - 1) x z (x + 2) z) := by
      unfold hits; omega
    have h1 : ¬(xi < X - 1 ∧ hits xi zi (xi + 1) zi x z (x + 2) z) := by
      unfold hits; omega
    have h2 : ¬(zi < Z - 1 ∧ hits xi zi xi (zi + 1) x z (x + 2) z) := by
      unfold hits; omega
    have h3 : ¬(0 < xi ∧ hits xi zi (xi - 1) zi x z (x + 2) z) := by
      unfold hits; omega
    have h4 : xi < X - 2 ∧ hits xi zi (xi + 2) zi x z (x + 2) z := by
      unfold hits; omega
    have h5 : ¬(zi < Z - 2 ∧ hits xi zi xi (zi + 2) x z (x + 2) z) := by
      unfold hits; omega
    have h6 : ¬((0 < zi ∧ 0 < xi) ∧ hits xi zi (xi - 1) (zi - 1) x z (x + 2) z) := by
      unfold hits; omega
    have h7 : ¬((0 < zi ∧ xi < X - 1) ∧ hits xi zi (xi + 1) (zi - 1) x z (x + 2) z) := by
      unfold hits; omega
    have h8 : ¬((zi < Z - 1 ∧ 0 < xi) ∧ hits xi zi (xi - 1) (zi + 1) x z (x + 2) z) := by
      unfold hits; omega
    have h9 : ¬((zi < Z - 1 ∧ xi < X - 1) ∧ hits xi zi (xi + 1) (zi + 1) x z (x + 2) z) := by
      unfold hits; omega
    rw [if_pos hA, if_neg h0, if_neg h1, if_neg h2, if_neg h3, if_pos h4, if_neg h5, if_neg h6, if_neg h7, if_neg h8, if_neg h9]
  · have h0 : ¬(0 < zi ∧ hits xi zi xi (zi - 1) x z (x + 2) z) := by
      unfold hits; omega
    have h1 : ¬(xi < X - 1 ∧ hits xi zi (xi + 1) zi x z (x + 2) z) := by
      unfold hits; omega
    have h2 : ¬(zi < Z - 1 ∧ hits xi zi xi (zi + 1) x z (x + 2) z) := by
      unfold hits; omega
    have h3 : ¬(0 < xi ∧ hits xi zi (xi - 1) zi x z (x + 2) z) := by
      unfold hits; omega
    have h4 : ¬(xi < X - 2 ∧ hits xi zi (xi + 2) zi x z (x + 2) z) := by
      unfold hits; omega
    have h5 : ¬(zi < Z - 2 ∧ hits xi zi xi (zi + 2) x z (x + 2) z) := by
      unfold hits; omega
    have h6 : ¬((0 < zi ∧ 0 < xi) ∧ hits xi zi (xi - 1) (zi - 1) x z (x + 2) z) := by
      unfold hits; omega
    have h7 : ¬((0 < zi ∧ xi < X - 1) ∧ hits xi zi (xi + 1) (zi - 1) x z (x + 2) z) := by
      unfold hits; omega
    have h8 : ¬((zi < Z - 1 ∧ 0 < xi) ∧ hits xi zi (xi - 1) (zi + 1) x z (x + 2) z) := by
      unfold hits; omega
    have h9 : ¬((zi < Z - 1 ∧ xi < X - 1) ∧ hits xi zi (xi + 1) (zi + 1) x z (x + 2) z) := by
      unfold hits; omega
    rw [if_neg hA, if_neg h0, if_neg h1, if_neg h2, if_neg h3, if_neg h4, if_neg h5, if_neg h6, if_neg h7, if_neg h8, if_neg h9]

theorem count_producedFrom_bendV (X Z xi zi x z : ℕ) (hxi : xi < X) (hx : x < X) (hz : z + 2 < Z) :
    (producedFrom X Z (gridIdx X xi zi)).count (gridIdx X x z, gridIdx X x (z + 2)) =
      (if xi = x ∧ zi = z then 1 else 0) := by
  rw [count_producedFrom_coords X Z xi zi x z x (z + 2) hxi hx hx (Or.inl (by omega))]
  by_cases hA : xi = x ∧ zi = z
  · have h0 : ¬(0 < zi ∧ hits xi zi xi (zi - 1) x z x (z + 2)) := by
      unfold hits; omega
    have h1 : ¬(xi < X - 1 ∧ hits xi zi (xi + 1) zi x z x (z + 2)) := by
      unfold hits; omega
    have h2 : ¬(zi < Z - 1 ∧ hits xi zi xi (zi + 1) x z x (z + 2)) := by
      unfold hits; omega
    have h3 : ¬(0 < xi ∧ hits xi zi (xi - 1) zi x z x (z + 2)) := by
      unfold hits; omega
    have h4 : ¬(xi < X - 2 ∧ hits xi zi (xi + 2) zi x z x (z + 2)) := by
      unfold hits; omega
    have h5 : zi < Z - 2 ∧ hits xi zi xi (zi + 2) x z x (z + 2) := by
      unfold hits; omega
    have h6 : ¬((0 < zi ∧ 0 < xi) ∧ hits xi zi (xi - 1) (zi - 1) x z x (z + 2)) := by
      unfold hits; omega
    have h7 : ¬((0 < zi ∧ xi < X - 1) ∧ hits xi zi (xi + 1) (zi - 1) x z x (z + 2)) := by
      unfold hits; omega
    have h8 : ¬((zi < Z - 1 ∧ 0 < xi) ∧ hits xi zi (xi - 1) (zi + 1) x z x (z + 2)) := by
      unfold hits; omega
    have h9 : ¬((zi < Z - 1 ∧ xi < X - 1) ∧ hits xi zi (xi + 1) (zi + 1) x z x (z + 2)) := by
      unfold hits; omega
    rw [if_pos hA, if_neg h0, if_neg h1, if_neg h2, if_neg h3, if_neg h4, if_pos h5, if_neg h6, if_neg h7, if_neg h8, if_neg h9]
  · have h0 : ¬(0 < zi ∧ hits xi zi xi (zi - 1) x z x (z + 2)) := by
      unfold hits; omega
    have h1 : ¬(xi < X - 1 ∧ hits xi zi (xi + 1) zi x z x (z + 2)) := by
      unfold hits; omega
    have h2 : ¬(zi < Z - 1 ∧ hits xi zi xi (zi + 1) x z x (z + 2)) := by
      unfold hits; omega
    have h3 : ¬(0 < xi ∧ hits xi zi (xi - 1) zi x z x (z + 2)) := by
      unfold hits; omega
    have h4 : ¬(xi < X - 2 ∧ hits xi zi (xi + 2) zi x z x (z + 2)) := by
      unfold hits; omega
    have h5 : ¬(zi < Z - 2 ∧ hits xi zi xi (zi + 2) x z x (z + 2)) := by
      unfold hits; omega
    have h6 : ¬((0 < zi ∧ 0 < xi) ∧ hits xi zi (xi - 1) (zi - 1) x z x (z + 2)) := by
      unfold hits; omega
    have h7 : ¬((0 < zi ∧ xi < X - 1) ∧ hits xi zi (xi + 1) (zi - 1) x z x (z + 2)) := by
      unfold hits; omega
    have h8 : ¬((zi < Z - 1 ∧ 0 < xi) ∧ hits xi zi (xi - 1) (zi + 1) x z x (z + 2)) := by
      unfold hits; omega
    have h9 : ¬((zi < Z - 1 ∧ xi < X - 1) ∧ hits xi zi (xi + 1) (zi + 1) x z x (z + 2)) := by
      unfold hits; omega
    rw [if_neg hA, if_neg h0, if_neg h1, if_neg h2, if_neg h3, if_neg h4, if_neg h5, if_neg h6, if_neg h7, if_neg h8, if_neg h9]

theorem count_producedFrom_diagSE (X Z xi zi x z : ℕ) (hxi : xi < X) (hx : x + 1 < X) (hz : z + 1 < Z) :
    (producedFrom X Z (gridIdx X xi zi)).count (gridIdx X x z, gridIdx X (x + 1) (z + 1)) =
      (if xi = x ∧ zi = z then 1 else 0) + (if xi = x + 1 ∧ zi = z + 1 then 1 else 0) := by
  rw [count_producedFrom_coords X Z xi zi x z (x + 1) (z + 1) hxi (by omega) hx (Or.inl (by omega))]
  by_cases hA : xi = x ∧ zi = z
  · have hB' : ¬(xi = x + 1 ∧ zi = z + 1) := by omega
    have h0 : ¬(0 < zi ∧ hits xi zi xi (zi - 1) x z (x + 1) (z + 1)) := by
      unfold hits; omega
    have h1 : ¬(xi < X - 1 ∧ hits xi zi (xi + 1) zi x z (x + 1) (z + 1)) := by
      unfold hits; omega
    have h2 : ¬(zi < Z - 1 ∧ hits xi zi xi (zi + 1) x z (x + 1) (z + 1)) := by
      unfold hits; omega
    have h3 : ¬(0 < xi ∧ hits xi zi (xi - 1) zi x z (x + 1) (z + 1)) := by
      unfold hits; omega
    have h4 : ¬(xi < X - 2 ∧ hits xi zi (xi + 2) zi x z (x + 1) (z + 1)) := by
      unfold hits; omega
    have h5 : ¬(zi < Z - 2 ∧ hits xi zi xi (zi + 2) x z (x + 1) (z + 1)) := by
      unfold hits; omega
    have h6 : ¬((0 < zi ∧ 0 < xi) ∧ hits xi zi (xi - 1) (zi - 1) x z (x + 1) (z + 1)) := by
      unfold hits; omega
    have h7 : ¬((0 < zi ∧ xi < X - 1) ∧ hits xi zi (xi + 1) (zi - 1) x z (x + 1) (z + 1)) := by
      unfold hits; omega
    have h8 : ¬((zi < Z - 1 ∧ 0 < xi) ∧ hits xi zi (xi - 1) (zi + 1) x z (x + 1) (z + 1)) := by
      unfold hits; omega
    have h9 : (zi < Z - 1 ∧ xi < X - 1) ∧ hits xi zi (xi + 1) (zi + 1) x z (x + 1) (z + 1) := by
      unfold hits; omega
    rw [if_pos hA, if_neg hB', if_neg h0, if_neg h1, if_neg h2, if_neg h3, if_neg h4, if_neg h5, if_neg h6, if_neg h7, if_neg h8, if_pos h9]
  · by_cases hB : xi = x + 1 ∧ zi = z + 1
    · have h0 : ¬(0 < zi ∧ hits xi zi xi (zi - 1) x z (x + 1) (z + 1)) := by
        unfold hits; omega
      have h1 : ¬(xi < X - 1 ∧ hits xi zi (xi + 1) zi x z (x + 1) (z + 1)) := by
        unfold hits; omega
      have h2 : ¬(zi < Z - 1 ∧ hits xi zi xi (zi + 1) x z (x + 1) (z + 1)) := by
        unfold hits; omega
      have h3 : ¬(0 < xi ∧ hits xi zi (xi - 1) zi x z (x + 1) (z + 1)) := by
        unfold hits; omega
      have h4 : ¬(xi < X - 2 ∧ hits xi zi (xi + 2) zi x z (x + 1) (z + 1)) := by
        unfold hits; omega
      have h5 : ¬(zi < Z - 2 ∧ hits xi zi xi (zi + 2) x z (x + 1) (z + 1)) := by
        unfold hits; omega
      have h6 : (0 < zi ∧ 0 < xi) ∧ hits xi zi (xi - 1) (zi - 1) x z (x + 1) (z + 1) := by
        unfold hits; omega
      have h7 : ¬((0 < zi ∧ xi < X - 1) ∧ hits xi zi (xi + 1) (zi - 1) x z (x + 1) (z + 1)) := by
        unfold hits; omega
      have h8 : ¬((zi < Z - 1 ∧ 0 < xi) ∧ hits xi zi (xi - 1) (zi + 1) x z (x + 1) (z + 1)) := by
        unfold hits; omega
      have h9 : ¬((zi < Z - 1 ∧ xi < X - 1) ∧ hits xi zi (xi + 1) (zi + 1) x z (x + 1) (z + 1)) := by
        unfold hits; omega
      rw [if_neg hA, if_pos hB, if_neg h0, if_neg h1, if_neg h2, if_neg h3, if_neg h4, if_neg h5, if_pos h6, if_neg h7, if_neg h8, if_neg h9]
    · have hno : ∀ xt zt, ¬hits xi zi xt zt x z (x + 1) (z + 1) := by
        intro xt zt
        unfold hits
        omega
      rw [if_neg hA, if_neg hB]
      simp only [hno, and_true, true_and, and_false, false_and, if_true, if_false]

theorem count_producedFrom_diagSW (X Z xi zi x z : ℕ) (hxi : xi < X) (hx : x + 1 < X) (hz : z + 1 < Z) :
    (producedFrom X Z (gridIdx X xi zi)).count (gridIdx X (x + 1) z, gridIdx X x (z + 1)) =
      (if xi = x + 1 ∧ zi = z then 1 else 0) + (if xi = x ∧ zi = z + 1 then 1 else 0) := by
  rw [count_producedFrom_coords X Z xi zi (x + 1) z x (z + 1) hxi hx (by omega) (Or.inl (by omega))]
  by_cases hA : xi = x + 1 ∧ zi = z
  · have hB' : ¬(xi = x ∧ zi = z + 1) := by omega
    have h0 : ¬(0 < zi ∧ hits xi zi xi (zi - 1) (x + 1) z x (z + 1)) := by
      unfold hits; omega
    have h1 : ¬(xi < X - 1 ∧ hits xi zi (xi + 1) zi (x + 1) z x (z + 1)) := by
      unfold hits; omega
    have h2 : ¬(zi < Z - 1 ∧ hits xi zi xi (zi + 1) (x + 1) z x (z + 1)) := by
      unfold hits; omega
    have h3 : ¬(0 < xi ∧ hits xi zi (xi - 1) zi (x + 1) z x (z + 1)) := by
      unfold hits; omega
    have h4 : ¬(xi < X - 2 ∧ hits xi zi (xi + 2) zi (x + 1) z x (z + 1)) := by
      unfold hits; omega
    have h5 : ¬(zi < Z - 2 ∧ hits xi zi xi (zi + 2) (x + 1) z x (z + 1)) := by
      unfold hits; omega
    have h6 : ¬((0 < zi ∧ 0 < xi) ∧ hits xi zi (xi - 1) (zi - 1) (x + 1) z x (z + 1)) := by
      unfold hits; omega
    have h7 : ¬((0 < zi ∧ xi < X - 1) ∧ hits xi zi (xi + 1) (zi - 1) (x + 1) z x (z + 1)) := by
      unfold hits; omega
    have h8 : (zi < Z - 1 ∧ 0 < xi) ∧ hits xi zi (xi - 1) (zi + 1) (x + 1) z x (z + 1) := by
      unfold hits; omega
    have h9 : ¬((zi < Z - 1 ∧ xi < X - 1) ∧ hits xi zi (xi + 1) (zi + 1) (x + 1) z x (z + 1)) := by
      unfold hits; omega
    rw [if_pos hA, if_neg hB', if_neg h0, if_neg h1, if_neg h2, if_neg h3, if_neg h4, if_neg h5, if_neg h6, if_neg h7, if_pos h8, if_neg h9]
  · by_cases hB : xi = x ∧ zi = z + 1
    · have h0 : ¬(0 < zi ∧ hits xi zi xi (zi - 1) (x + 1) z x (z + 1)) := by
        unfold hits; omega
      have h1 : ¬(xi < X - 1 ∧ hits xi zi (xi + 1) zi (x + 1) z x (z + 1)) := by
        unfold hits; omega
      have h2 : ¬(zi < Z - 1 ∧ hits xi zi xi (zi + 1) (x + 1) z x (z + 1)) := by
        unfold hits; omega
      have h3 : ¬(0 < xi ∧ hits xi zi (xi - 1) zi (x + 1) z x (z + 1)) := by
        unfold hits; omega
      have h4 : ¬(xi < X - 2 ∧ hits xi zi (xi + 2) zi (x + 1) z x (z + 1)) := by
        unfold hits; omega
      have h5 : ¬(zi < Z - 2 ∧ hits xi zi xi (zi + 2) (x + 1) z x (z + 1)) := by
        unfold hits; omega
      have h6 : ¬((0 < zi ∧ 0 < xi) ∧ hits xi zi (xi - 1) (zi - 1) (x + 1) z x (z + 1)) := by
        unfold hits; omega
      have h7 : (0 < zi ∧ xi < X - 1) ∧ hits xi zi (xi + 1) (zi - 1) (x + 1) z x (z + 1) := by
        unfold hits; omega
      have h8 : ¬((zi < Z - 1 ∧ 0 < xi) ∧ hits xi zi (xi - 1) (zi + 1) (x + 1) z x (z + 1)) := by
        unfold hits; omega
      have h9 : ¬((zi < Z - 1 ∧ xi < X - 1) ∧ hits xi zi (xi + 1) (zi + 1) (x + 1) z x (z + 1)) := by
        unfold hits; omega
      rw [if_neg hA, if_pos hB, if_neg h0, if_neg h1, if_neg h2, if_neg h3, if_neg h4, if_neg h5, if_neg h6, if_pos h7, if_neg h8, if_neg h9]
    · have hno : ∀ xt zt, ¬hits xi zi xt zt (x + 1) z x (z + 1) := by
        intro xt zt
        unfold hits
        omega
      rw [if_neg hA, if_neg hB]
      simp only [hno, and_true, true_and, and_false, false_and, if_true, if_false]

theorem count_producedEdges_two (X Z a b : ℕ) (ha : a < X * Z) (hb : b < X * Z) (e : ℕ × ℕ)
    (hchar : ∀ i, i < X * Z →
      (producedFrom X Z i).count e = (if i = a then 1 else 0) + (if i = b then 1 else 0)) :
    (producedEdges X Z).count e = 2 := by
  unfold producedEdges
  rw [count_flatMap]
  have hmap : (List.range (X * Z)).map (fun i => (producedFrom X Z i).count e) =
      (List.range (X * Z)).map (fun i => (if i = a then 1 else 0) + (if i = b then 1 else 0)) :=
    List.map_congr_left (fun i hi => hchar i (List.mem_range.mp hi))
  rw [hmap, sum_map_add, sum_map_range_ind1 (X * Z) a ha, sum_map_range_ind1 (X * Z) b hb]

theorem count_producedEdges_one (X Z a : ℕ) (ha : a < X * Z) (e : ℕ × ℕ)
    (hchar : ∀ i, i < X * Z →
      (producedFrom X Z i).count e = if i = a then 1 else 0) :
    (producedEdges X Z).count e = 1 := by
  unfold producedEdges
  rw [count_flatMap]
  have hmap : (List.range (X * Z)).map (fun i => (producedFrom X Z i).count e) =
      (List.range (X * Z)).map (fun i => if i = a then 1 else 0) :=
    List.map_congr_left (fun i hi => hchar i (List.mem_range.mp hi))
  rw [hmap, sum_map_range_ind1 (X * Z) a ha]

theorem producedEdges_structH (X Z x z : ℕ) (hx : x + 1 < X) (hz : z < Z) :
    (producedEdges X Z).count (gridIdx X x z, gridIdx X (x + 1) z) = 2 := by
  apply count_producedEdges_two X Z (gridIdx X x z) (gridIdx X (x + 1) z) (gridIdx_lt_total X Z x z (by omega) hz) (gridIdx_lt_total X Z (x + 1) z hx hz)
  intro i hi
  have hxi : i % X < X := Nat.mod_lt _ (by omega)
  have hgi : gridIdx X (i % X) (i / X) = i := by
    unfold gridIdx
    rw [Nat.mul_comm]
    exact Nat.div_add_mod i X
  have h1 : (producedFrom X Z i).count (gridIdx X x z, gridIdx X (x + 1) z) =
      (if i % X = x ∧ i / X = z then 1 else 0) + (if i % X = x + 1 ∧ i / X = z then 1 else 0) := by
    conv_lhs => rw [← hgi]
    exact count_producedFrom_structH X Z (i % X) (i / X) x z hxi hx
  rw [h1, if_congr (coords_eq_iff X x z i (by omega)) rfl rfl, if_congr (coords_eq_iff X (x + 1) z i hx) rfl rfl]

theorem producedEdges_structV (X Z x z : ℕ) (hx : x < X) (hz : z + 1 < Z) :
    (producedEdges X Z).count (gridIdx X x z, gridIdx X x (z + 1)) = 2 := by
  apply count_producedEdges_two X Z (gridIdx X x z) (gridIdx X x (z + 1)) (gridIdx_lt_total X Z x z hx (by omega)) (gridIdx_lt_total X Z x (z + 1) hx hz)
  intro i hi
  have hxi : i % X < X := Nat.mod_lt _ (by omega)
  have hgi : gridIdx X (i % X) (i / X) = i := by
    unfold gridIdx
    rw [Nat.mul_comm]
    exact Nat.div_add_mod i X
  have h1 : (producedFrom X Z i).count (gridIdx X x z, gridIdx X x (z + 1)) =
      (if i % X = x ∧ i / X = z then 1 else 0) + (if i % X = x ∧ i / X = z + 1 then 1 else 0) := by
    conv_lhs => rw [← hgi]
    exact count_producedFrom_structV X Z (i % X) (i / X) x z hxi hx hz
  rw [h1, if_congr (coords_eq_iff X x z i hx) rfl rfl, if_congr (coords_eq_iff X x (z + 1) i hx) rfl rfl]

theorem producedEdges_bendH (X Z x z : ℕ) (hx : x + 2 < X) (hz : z < Z) :
    (producedEdges X Z).count (gridIdx X x z, gridIdx X (x + 2) z) = 1 := by
  apply count_producedEdges_one X Z (gridIdx X x z) (gridIdx_lt_total X Z x z (by omega) hz)
  intro i hi
  have hxi : i % X < X := Nat.mod_lt _ (by omega)
  have hgi : gridIdx X (i % X) (i / X) = i := by
    unfold gridIdx
    rw [Nat.mul_comm]
    exact Nat.div_add_mod i X
  have h1 : (producedFrom X Z i).count (gridIdx X x z, gridIdx X (x + 2) z) =
      (if i % X = x ∧ i / X = z then 1 else 0) := by
    conv_lhs => rw [← hgi]
    exact count_producedFrom_bendH X Z (i % X) (i / X) x z hxi hx
  rw [h1, if_congr (coords_eq_iff X x z i (by omega)) rfl rfl]

theorem producedEdges_bendV (X Z x z : ℕ) (hx : x < X) (hz : z + 2 < Z) :
    (producedEdges X Z).count (gridIdx X x z, gridIdx X x (z + 2)) = 1 := by
  apply count_producedEdges_one X Z (gridIdx X x z) (gridIdx_lt_total X Z x z hx (by omega))
  intro i hi
  have hxi : i % X < X := Nat.mod_lt _ (by omega)
  have hgi : gridIdx X (i % X) (i / X) = i := by
    unfold gridIdx
    rw [Nat.mul_comm]
    exact Nat.div_add_mod i X
  have h1 : (producedFrom X Z i).count (gridIdx X x z, gridIdx X x (z + 2)) =
      (if i % X = x ∧ i / X = z then 1 else 0) := by
    conv_lhs => rw [← hgi]
    exact count_producedFrom_bendV X Z (i % X) (i / X) x z hxi hx hz
  rw [h1, if_congr (coords_eq_iff X x z i hx) rfl rfl]

theorem producedEdges_diagSE (X Z x z : ℕ) (hx : x + 1 < X) (hz : z + 1 < Z) :
    (producedEdges X Z).count (gridIdx X x z, gridIdx X (x + 1) (z + 1)) = 2 := by
  apply count_producedEdges_two X Z (gridIdx X x z) (gridIdx X (x + 1) (z + 1)) (gridIdx_lt_total X Z x z (by omega) (by omega)) (gridIdx_lt_total X Z (x + 1) (z + 1) hx hz)
  intro i hi
  have hxi : i % X < X := Nat.mod_lt _ (by omega)
  have hgi : gridIdx X (i % X) (i / X) = i := by
    unfold gridIdx
    rw [Nat.mul_comm]
    exact Nat.div_add_mod i X
  have h1 : (producedFrom X Z i).count (gridIdx X x z, gridIdx X (x + 1) (z + 1)) =
      (if i % X = x ∧ i / X = z then 1 else 0) + (if i % X = x + 1 ∧ i / X = z + 1 then 1 else 0) := by
    conv_lhs => rw [← hgi]
    exact count_producedFrom_diagSE X Z (i % X) (i / X) x z hxi hx hz
  rw [h1, if_congr (coords_eq_iff X x z i (by omega)) rfl rfl, if_congr (coords_eq_iff X (x + 1) (z + 1) i hx) rfl rfl]

theorem producedEdges_diagSW (X Z x z : ℕ) (hx : x + 1 < X) (hz : z + 1 < Z) :
    (producedEdges X Z).count (gridIdx X (x + 1) z, gridIdx X x (z + 1)) = 2 := by
  apply count_producedEdges_two X Z (gridIdx X (x + 1) z) (gridIdx X x (z + 1)) (gridIdx_lt_total X Z (x + 1) z hx (by omega)) (gridIdx_lt_total X Z x (z + 1) (by omega) hz)
  intro i hi
  have hxi : i % X < X := Nat.mod_lt _ (by omega)
  have hgi : gridIdx X (i % X) (i / X) = i := by
    unfold gridIdx
    rw [Nat.mul_comm]
    exact Nat.div_add_mod i X
  have h1 : (producedFrom X Z i).count (gridIdx X (x + 1) z, gridIdx X x (z + 1)) =
      (if i % X = x + 1 ∧ i / X = z then 1 else 0) + (if i % X = x ∧ i / X = z + 1 then 1 else 0) := by
    conv_lhs => rw [← hgi]
    exact count_producedFrom_diagSW X Z (i % X) (i / X) x z hxi hx hz
  rw [h1, if_congr (coords_eq_iff X (x + 1) z i hx) rfl rfl, if_congr (coords_eq_iff X x (z + 1) i (by omega)) rfl rfl]

/-- Counterexample to C3 as stated: in the 2 × 2 grid (divisions 1 × 1), the
undirected structural edge between vertices 0 and 1 is produced twice — once
from vertex 0 (right neighbor) and once from vertex 1 (left neighbor) — not
exactly once as the claim asserts for every edge. -/
theorem producedEdges_counterexample : (producedEdges 2 2).count (0, 1) = 2 := by decide

/-- C3 amended: when every vertex of a `vXCount × vZCount` grid enumerates
its candidate neighbors, each undirected BEND edge is produced exactly once
(from its lower-index endpoint only, the doubling being right/below only),
while each STRUCTURAL and each SHEAR edge is produced exactly twice — once
from each of its two endpoints (the candidate list contains both directions
of those offsets). -/
theorem producedEdges_classes (X Z x z : ℕ) :
    (x + 2 < X → z < Z →
      (producedEdges X Z).count (gridIdx X x z, gridIdx X (x + 2) z) = 1 ∧
      (producedFrom X Z (gridIdx X x z)).count (gridIdx X x z, gridIdx X (x + 2) z) = 1 ∧
      (producedFrom X Z (gridIdx X (x + 2) z)).count (gridIdx X x z, gridIdx X (x + 2) z) = 0) ∧
    (x < X → z + 2 < Z →
      (producedEdges X Z).count (gridIdx X x z, gridIdx X x (z + 2)) = 1 ∧
      (producedFrom X Z (gridIdx X x z)).count (gridIdx X x z, gridIdx X x (z + 2)) = 1 ∧
      (producedFrom X Z (gridIdx X x (z + 2))).count (gridIdx X x z, gridIdx X x (z + 2)) = 0) ∧
    (x + 1 < X → z < Z →
      (producedEdges X Z).count (gridIdx X x z, gridIdx X (x + 1) z) = 2 ∧
      (producedFrom X Z (gridIdx X x z)).count (gridIdx X x z, gridIdx X (x + 1) z) = 1 ∧
      (producedFrom X Z (gridIdx X (x + 1) z)).count (gridIdx X x z, gridIdx X (x + 1) z) = 1) ∧
    (x < X → z + 1 < Z →
      (producedEdges X Z).count (gridIdx X x z, gridIdx X x (z + 1)) = 2 ∧
      (producedFrom X Z (gridIdx X x z)).count (gridIdx X x z, gridIdx X x (z + 1)) = 1 ∧
      (producedFrom X Z (gridIdx X x (z + 1))).count (gridIdx X x z, gridIdx X x (z + 1)) = 1) ∧
    (x + 1 < X → z + 1 < Z →
      (producedEdges X Z).count (gridIdx X x z, gridIdx X (x + 1) (z + 1)) = 2 ∧
      (producedFrom X Z (gridIdx X x z)).count
        (gridIdx X x z, gridIdx X (x + 1) (z + 1)) = 1 ∧
      (producedFrom X Z (gridIdx X (x + 1) (z + 1))).count
        (gridIdx X x z, gridIdx X (x + 1) (z + 1)) = 1) ∧
    (x + 1 < X → z + 1 < Z →
      (producedEdges X Z).count (gridIdx X (x + 1) z, gridIdx X x (z + 1)) = 2 ∧
      (producedFrom X Z (gridIdx X (x + 1) z)).count
        (gridIdx X (x + 1) z, gridIdx X x (z + 1)) = 1 ∧
      (producedFrom X Z (gridIdx X x (z + 1))).count
        (gridIdx X (x + 1) z, gridIdx X x (z + 1)) = 1) := by
  refine ⟨fun hx hz => ⟨producedEdges_bendH X Z x z hx hz, ?_, ?_⟩,
    fun hx hz => ⟨producedEdges_bendV X Z x z hx hz, ?_, ?_⟩,
    fun hx hz => ⟨producedEdges_structH X Z x z hx hz, ?_, ?_⟩,
    fun hx hz => ⟨producedEdges_structV X Z x z hx hz, ?_, ?_⟩,
    fun hx hz => ⟨producedEdges_diagSE X Z x z hx hz, ?_, ?_⟩,
    fun hx hz => ⟨producedEdges_diagSW X Z x z hx hz, ?_, ?_⟩⟩
  · have h := count_producedFrom_bendH X Z x z x z (by omega) hx
    rw [if_pos ⟨rfl, rfl⟩] at h
    exact h
  · have h := count_producedFrom_bendH X Z (x + 2) z x z hx hx
    rw [if_neg (by omega)] at h
    exact h
  · have h := count_producedFrom_bendV X Z x z x z hx hx hz
    rw [if_pos ⟨rfl, rfl⟩] at h
    exact h
  · have h := count_producedFrom_bendV X Z x (z + 2) x z hx hx hz
    rw [if_neg (by omega)] at h
    exact h
  · have h := count_producedFrom_structH X Z x z x z (by omega) hx
    rw [if_pos ⟨rfl, rfl⟩, if_neg (by omega)] at h
    exact h
  · have h := count_producedFrom_structH X Z (x + 1) z x z hx hx
    rw [if_neg (by omega), if_pos ⟨rfl, rfl⟩] at h
    exact h
  · have h := count_producedFrom_structV X Z x z x z hx hx hz
    rw [if_pos ⟨rfl, rfl⟩, if_neg (by omega)] at h
    exact h
  · have h := count_producedFrom_structV X Z x (z + 1) x z hx hx hz
    rw [if_neg (by omega), if_pos ⟨rfl, rfl⟩] at h
    exact h
  · have h := count_producedFrom_diagSE X Z x z x z (by omega) hx hz
    rw [if_pos ⟨rfl, rfl⟩, if_neg (by omega)] at h
    exact h
  · have h := count_producedFrom_diagSE X Z (x + 1) (z + 1) x z hx hx hz
    rw [if_neg (by omega), if_pos ⟨rfl, rfl⟩] at h
    exact h
  · have h := count_producedFrom_diagSW X Z (x + 1) z x z hx hx hz
    rw [if_pos ⟨rfl, rfl⟩, if_neg (by omega)] at h
    exact h
  · have h := count_producedFrom_diagSW X Z x (z + 1) x z (by omega) hx hz
    rw [if_neg (by omega), if_pos ⟨rfl, rfl⟩] at h
    exact h

/-- Witness for C3's amended theorem on the 4 × 4 grid at the corner cell. -/
theorem producedEdges_classes_witness :
    ((producedEdges 4 4).count (gridIdx 4 0 0, gridIdx 4 2 0) = 1 ∧
      (producedFrom 4 4 (gridIdx 4 0 0)).count (gridIdx 4 0 0, gridIdx 4 2 0) = 1 ∧
      (producedFrom 4 4 (gridIdx 4 2 0)).count (gridIdx 4 0 0, gridIdx 4 2 0) = 0) ∧
    ((producedEdges 4 4).count (gridIdx 4 0 0, gridIdx 4 0 2) = 1 ∧
      (producedFrom 4 4 (gridIdx 4 0 0)).count (gridIdx 4 0 0, gridIdx 4 0 2) = 1 ∧
      (producedFrom 4 4 (gridIdx 4 0 2)).count (gridIdx 4 0 0, gridIdx 4 0 2) = 0) ∧
    ((producedEdges 4 4).count (gridIdx 4 0 0, gridIdx 4 1 0) = 2 ∧
      (producedFrom 4 4 (gridIdx 4 0 0)).count (gridIdx 4 0 0, gridIdx 4 1 0) = 1 ∧
      (producedFrom 4 4 (gridIdx 4 1 0)).count (gridIdx 4 0 0, gridIdx 4 1 0) = 1) ∧
    ((producedEdges 4 4).count (gridIdx 4 0 0, gridIdx 4 0 1) = 2 ∧
      (producedFrom 4 4 (gridIdx 4 0 0)).count (gridIdx 4 0 0, gridIdx 4 0 1) = 1 ∧
      (producedFrom 4 4 (gridIdx 4 0 1)).count (gridIdx 4 0 0, gridIdx 4 0 1) = 1) ∧
    ((producedEdges 4 4).count (gridIdx 4 0 0, gridIdx 4 1 1) = 2 ∧
      (producedFrom 4 4 (gridIdx 4 0 0)).count (gridIdx 4 0 0, gridIdx 4 1 1) = 1 ∧
      (producedFrom 4 4 (gridIdx 4 1 1)).count (gridIdx 4 0 0, gridIdx 4 1 1) = 1) ∧
    ((producedEdges 4 4).count (gridIdx 4 1 0, gridIdx 4 0 1) = 2 ∧
      (producedFrom 4 4 (gridIdx 4 1 0)).count (gridIdx 4 1 0, gridIdx 4 0 1) = 1 ∧
      (producedFrom 4 4 (gridIdx 4 0 1)).count (gridIdx 4 1 0, gridIdx 4 0 1) = 1) :=
  ⟨(producedEdges_classes 4 4 0 0).1 (by omega) (by omega),
    (producedEdges_classes 4 4 0 0).2.1 (by omega) (by omega),
    (producedEdges_classes 4 4 0 0).2.2.1 (by omega) (by omega),
    (producedEdges_classes 4 4 0 0).2.2.2.1 (by omega) (by omega),
    (producedEdges_classes 4 4 0 0).2.2.2.2.1 (by omega) (by omega),
    (producedEdges_classes 4 4 0 0).2.2.2.2.2 (by omega) (by omega)⟩

end Blendycat
